import Mathlib

/-!
# assignment1.go : a linear create / list / update / delete script

Shallow embedding of `src/assignment1.go`.  The script is one procedure, `main`,
that drives an orchestration API through a fixed list of calls and panics on the
first error, plus the helper `prompt`.

* The API objects are records holding the fields the script reads or writes.
* The cluster is an external collaborator: `main` is written against a record of
  client operations over an arbitrary cluster state `σ`.
* Every fallible interaction (API call, console read) is logged in a trace of
  events, so that the order of the calls can be stated.
* The retry helper of the client library and the cluster without interfering actors
  (`Store`) are not part of the repository; they are modelled from the specification.
* Go panics end the run: a piece of the script returns a value or a panic, and a panic
  skips everything after it.  Timing (backoff sleeps, request deadlines) is left out.
-/

namespace Assignment1

/-! ## API objects -/

/-- Labels, a Go `map[string]string`, kept as an association list. -/
abbrev Labels := List (String × String)

/-- Fields of `metav1.ObjectMeta` used by the script or by the API contract. -/
structure ObjectMeta where
  Name : String := ""
  Namespace : String := ""
  ResourceVersion : String := ""
  Labels : Labels := []
deriving DecidableEq, Repr

/-- Type `metav1.LabelSelector`. -/
structure LabelSelector where
  MatchLabels : Labels
deriving DecidableEq, Repr

/-- Type `apiv1.Protocol`. -/
inductive Protocol where
  | ProtocolTCP
  | ProtocolUDP
  | ProtocolSCTP
deriving DecidableEq, Repr

/-- Type `apiv1.ContainerPort`. -/
structure ContainerPort where
  Name : String
  Protocol : Protocol
  ContainerPort : Int
deriving DecidableEq, Repr

/-- Type `apiv1.Container`. -/
structure Container where
  Name : String
  Image : String
  Ports : List ContainerPort
deriving DecidableEq, Repr

/-- Type `apiv1.PodSpec`. -/
structure PodSpec where
  Containers : List Container
deriving DecidableEq, Repr

/-- Type `apiv1.PodTemplateSpec`. -/
structure PodTemplateSpec where
  ObjectMeta : ObjectMeta := {}
  Spec : PodSpec
deriving DecidableEq, Repr

/-- Type `appsv1.DeploymentSpec`; `Replicas` is a `*int32`, `Selector` a pointer. -/
structure DeploymentSpec where
  Replicas : Option Int
  Selector : Option LabelSelector
  Template : PodTemplateSpec
deriving DecidableEq, Repr

/-- Type `appsv1.Deployment`. -/
structure Deployment where
  ObjectMeta : ObjectMeta := {}
  Spec : DeploymentSpec
deriving DecidableEq, Repr

/-- Type `apiv1.Namespace`. -/
structure Namespace where
  ObjectMeta : ObjectMeta := {}
deriving DecidableEq, Repr

/-- Type `intstr.IntOrString`. -/
inductive IntOrString where
  | FromInt (val : Int)
  | FromString (val : String)
deriving DecidableEq, Repr

/-- Type `apiv1.ServiceType`. -/
inductive ServiceType where
  | ServiceTypeClusterIP
  | ServiceTypeNodePort
  | ServiceTypeLoadBalancer
  | ServiceTypeExternalName
deriving DecidableEq, Repr

/-- Type `apiv1.ServicePort`. -/
structure ServicePort where
  Port : Int
  TargetPort : IntOrString
  NodePort : Int
deriving DecidableEq, Repr

/-- Type `apiv1.ServiceSpec`; `Selector` is the field left commented out in the script. -/
structure ServiceSpec where
  Selector : Labels := []
  Ports : List ServicePort
  ServiceType : ServiceType
deriving DecidableEq, Repr

/-- Type `apiv1.Service`. -/
structure Service where
  ObjectMeta : ObjectMeta := {}
  Spec : ServiceSpec
deriving DecidableEq, Repr

/-- Type `metav1.ListOptions`. -/
structure ListOptions where
  LabelSelector : String := ""
deriving DecidableEq, Repr

/-- Type `metav1.DeletionPropagation`. -/
inductive DeletionPropagation where
  | DeletePropagationOrphan
  | DeletePropagationBackground
  | DeletePropagationForeground
deriving DecidableEq, Repr

/-- Type `metav1.DeleteOptions`. -/
structure DeleteOptions where
  PropagationPolicy : Option DeletionPropagation := none
deriving DecidableEq, Repr

/-- Constant `apiv1.NamespaceDefault`. -/
def NamespaceDefault : String := "default"

/-- Function `int32Ptr` (line 336): the address of a fresh copy of `i`. -/
def int32Ptr (i : Int) : Option Int := some i

/-! ## The descriptors built by `main` -/

/-- Lines 44-74: the deployment created in the default namespace. -/
def deployment : Deployment :=
  { ObjectMeta := { Name := "demo-deployment" }
    Spec :=
      { Replicas := int32Ptr 2
        Selector := some { MatchLabels := [("app", "demo")] }
        Template :=
          { ObjectMeta := { Labels := [("app", "demo")] }
            Spec :=
              { Containers :=
                  [ { Name := "web"
                      Image := "nginx:1.12"
                      Ports := [ { Name := "http", Protocol := .ProtocolTCP, ContainerPort := 80 } ] } ] } } } }

/-- Lines 145-149: the namespace created by the script. -/
def namespace1 : Namespace :=
  { ObjectMeta := { Name := "test-namespace" } }

/-- Lines 172-202: the deployment created in `test-namespace` (the variable `deployment`
is assigned a second time). -/
def deployment2 : Deployment :=
  { ObjectMeta := { Name := "demo-deployment" }
    Spec :=
      { Replicas := int32Ptr 2
        Selector := some { MatchLabels := [("app", "demo")] }
        Template :=
          { ObjectMeta := { Labels := [("app", "demo")] }
            Spec :=
              { Containers :=
                  [ { Name := "web"
                      Image := "nginx:1.12"
                      Ports := [ { Name := "http", Protocol := .ProtocolTCP, ContainerPort := 80 } ] } ] } } } }

/-- Lines 249-266: the node-port service. -/
def serviceNp : Service :=
  { ObjectMeta := { Name := "service-np" }
    Spec :=
      { Ports := [ { Port := 80, TargetPort := .FromInt 80, NodePort := 31000 } ]
        ServiceType := .ServiceTypeNodePort } }

/-! ## Errors, panics, console -/

/-- Type `metav1.StatusReason`: how the client library classifies an API error. -/
inductive StatusReason where
  | StatusReasonUnknown
  | StatusReasonAlreadyExists
  | StatusReasonNotFound
  | StatusReasonConflict
deriving DecidableEq, Repr

/-- A non-nil Go `error` value. -/
structure GoError where
  Reason : StatusReason
  Message : String := ""
deriving DecidableEq, Repr

/-- Function `errors.IsConflict`. -/
def IsConflict (err : GoError) : Bool :=
  decide (err.Reason = StatusReason.StatusReasonConflict)

/-- The value carried by a Go panic. -/
inductive PanicValue where
  | error (err : GoError)
  | Errorf (format : String) (err : GoError)
  | nilPointerDereference
  | indexOutOfRange
deriving DecidableEq, Repr

/-- An argument of a formatted print. -/
inductive Arg where
  | str (s : String)
  | int (i : Int)
deriving DecidableEq, Repr

/-- One write to standard output; the format string is kept uninterpreted. -/
inductive Output where
  | Println (args : List Arg)
  | Printf (format : String) (args : List Arg)
deriving DecidableEq, Repr

/-- Outcome of the first `Scan` of a fresh `bufio.Scanner` on standard input. -/
inductive ScanResult where
  | token (text : String)
  | eof
  | error (err : GoError)
deriving DecidableEq, Repr

/-- Type `rest.Config`. -/
structure Config where
  Host : String := ""
deriving DecidableEq, Repr

/-- Type `wait.Backoff`; only the attempt count matters here, the durations are timing. -/
structure Backoff where
  Steps : Nat
deriving DecidableEq, Repr

/-! ## Events -/

/-- A fallible interaction of the script with its environment. -/
inductive Call where
  | BuildConfigFromFlags (masterUrl kubeconfigPath : String)
  | NewForConfig (config : Config)
  | Scan
  | DeploymentsCreate (ns : String) (d : Deployment)
  | DeploymentsList (ns : String) (opts : ListOptions)
  | DeploymentsGet (ns name : String)
  | DeploymentsUpdate (ns : String) (d : Deployment)
  | DeploymentsDelete (ns name : String) (opts : DeleteOptions)
  | NamespacesCreate (n : Namespace)
  | NamespacesList (opts : ListOptions)
  | NamespacesDelete (name : String) (opts : DeleteOptions)
  | ServicesCreate (ns : String) (s : Service)
  | ServicesDelete (ns name : String) (opts : DeleteOptions)
deriving DecidableEq, Repr

/-- What a successful call handed back. -/
inductive Payload where
  | unit
  | config (c : Config)
  | line (text : String)
  | eof
  | deployment (d : Deployment)
  | deployments (items : List Deployment)
  | namespace1 (n : Namespace)
  | namespaces (items : List Namespace)
  | service (s : Service)
deriving DecidableEq, Repr

/-- A logged call.  `retriesLeft` is bookkeeping: for a call made inside a retried
function it is the number of further attempts the retry policy still allows, otherwise 0. -/
structure Event where
  call : Call
  retriesLeft : Nat
  result : Except GoError Payload

/-! ## The program monad -/

/-- Everything the script can change or observe having changed. -/
structure World (σ : Type) where
  cluster : σ
  reads : Nat
  stdout : List Output
  trace : List Event

/-- Result of running a piece of the script: a value, or a panic that ends the process. -/
inductive Res (α : Type) where
  | ok (val : α)
  | panic (v : PanicValue)

/-- A piece of the script. -/
def Prog (σ α : Type) : Type := World σ → Res α × World σ

/-- Sequencing: a panic skips everything that follows. -/
def Prog.bind {σ α β : Type} (p : Prog σ α) (f : α → Prog σ β) : Prog σ β :=
  fun w =>
    match p w with
    | (Res.ok a, w1) => f a w1
    | (Res.panic v, w1) => (Res.panic v, w1)

instance {σ : Type} : Monad (Prog σ) where
  pure a := fun w => (Res.ok a, w)
  bind := Prog.bind

/-- Go `panic(v)`. -/
def panic {σ α : Type} (v : PanicValue) : Prog σ α :=
  fun w => (Res.panic v, w)

/-- Function `fmt.Println`. -/
def Println {σ : Type} (args : List Arg) : Prog σ Unit :=
  fun w => (Res.ok (), { w with stdout := w.stdout ++ [Output.Println args] })

/-- Function `fmt.Printf`. -/
def Printf {σ : Type} (format : String) (args : List Arg) : Prog σ Unit :=
  fun w => (Res.ok (), { w with stdout := w.stdout ++ [Output.Printf format args] })

/-- Run one operation of the environment on the cluster state and log it. -/
def invoke {σ α : Type} (call : Call) (retriesLeft : Nat)
    (op : σ → Except GoError α × σ) (payload : α → Payload) : Prog σ (Except GoError α) :=
  fun w =>
    let r := op w.cluster
    (Res.ok r.1,
      { w with cluster := r.2
               trace := w.trace ++ [{ call := call, retriesLeft := retriesLeft, result := r.1.map payload }] })

/-- The idiom `if err != nil { panic(err) }`. -/
def check {σ α : Type} (r : Except GoError α) : Prog σ α :=
  match r with
  | Except.ok a => pure a
  | Except.error err => panic (PanicValue.error err)

/-! ## The environment -/

/-- The operations of the orchestration API, as functions on a cluster state `σ` that the
script does not own: any of them may fail and may change the state in any way. -/
structure Cluster (σ : Type) where
  createDeployment : String → Deployment → σ → Except GoError Deployment × σ
  listDeployments : String → ListOptions → σ → Except GoError (List Deployment) × σ
  getDeployment : String → String → σ → Except GoError Deployment × σ
  updateDeployment : String → Deployment → σ → Except GoError Deployment × σ
  deleteDeployment : String → String → DeleteOptions → σ → Except GoError Unit × σ
  createNamespace : Namespace → σ → Except GoError Namespace × σ
  listNamespaces : ListOptions → σ → Except GoError (List Namespace) × σ
  deleteNamespace : String → DeleteOptions → σ → Except GoError Unit × σ
  createService : String → Service → σ → Except GoError Service × σ
  deleteService : String → String → DeleteOptions → σ → Except GoError Unit × σ

/-- What the process is started with. -/
structure Env (σ : Type) where
  HomeDir : String
  Join : List String → String
  kubeconfigFlag : Option String
  BuildConfigFromFlags : String → String → Except GoError Config
  NewForConfig : Config → Except GoError (Cluster σ)
  DefaultRetry : Backoff
  Stdin : Nat → ScanResult

/-! ## Console pause -/

/-- State of a `bufio.Scanner` after its first `Scan`. -/
structure Scanner where
  text : String
  err : Option GoError

/-- Method `Scanner.Scan` on a fresh scanner whose read has outcome `r`: the boolean it
returns and the scanner afterwards.  End of input stops the scan without an error. -/
def Scanner.Scan (r : ScanResult) : Bool × Scanner :=
  match r with
  | ScanResult.token text => (true, { text := text, err := none })
  | ScanResult.eof => (false, { text := "", err := none })
  | ScanResult.error e => (false, { text := "", err := some e })

/-- Method `Scanner.Err`: the first error met by the scanner that is not end of input. -/
def Scanner.Err (s : Scanner) : Option GoError := s.err

/-- What the log keeps of a console read. -/
def ScanResult.logged (r : ScanResult) : Except GoError Payload :=
  match r with
  | ScanResult.token text => Except.ok (Payload.line text)
  | ScanResult.eof => Except.ok Payload.eof
  | ScanResult.error e => Except.error e

/-- Lines 326-329: `scanner := bufio.NewScanner(os.Stdin); for scanner.Scan() { break }`.
The loop condition is evaluated once: a token leaves the loop through `break`, anything
else through the condition. -/
def scanOnce {σ : Type} (env : Env σ) : Prog σ Scanner :=
  fun w =>
    let r := env.Stdin w.reads
    (Res.ok (Scanner.Scan r).2,
      { w with reads := w.reads + 1
               trace := w.trace ++ [{ call := Call.Scan, retriesLeft := 0, result := r.logged }] })

/-- Function `prompt` (lines 324-334). -/
def prompt {σ : Type} (env : Env σ) : Prog σ Unit := do
  Printf "-> Press Return key to continue." []
  let scanner ← scanOnce env
  match scanner.Err with
  | some err => panic (PanicValue.error err)
  | none => Println []

/-! ## Clients -/

/-- Result of `clientset.AppsV1().Deployments(ns)`. -/
structure DeploymentInterface (σ : Type) where
  cluster : Cluster σ
  ns : String

/-- Result of `clientset.CoreV1().Namespaces()`. -/
structure NamespaceInterface (σ : Type) where
  cluster : Cluster σ

/-- Result of `clientset.CoreV1().Services(ns)`. -/
structure ServiceInterface (σ : Type) where
  cluster : Cluster σ
  ns : String

/-- Function `clientcmd.BuildConfigFromFlags`. -/
def BuildConfigFromFlags {σ : Type} (env : Env σ) (masterUrl kubeconfigPath : String) :
    Prog σ (Except GoError Config) :=
  invoke (Call.BuildConfigFromFlags masterUrl kubeconfigPath) 0
    (fun s => (env.BuildConfigFromFlags masterUrl kubeconfigPath, s)) Payload.config

/-- Function `kubernetes.NewForConfig`. -/
def NewForConfig {σ : Type} (env : Env σ) (config : Config) :
    Prog σ (Except GoError (Cluster σ)) :=
  invoke (Call.NewForConfig config) 0 (fun s => (env.NewForConfig config, s)) (fun _ => Payload.unit)

/-- Method `Create` of the deployments client. -/
def DeploymentInterface.Create {σ : Type} (c : DeploymentInterface σ) (d : Deployment) :
    Prog σ (Except GoError Deployment) :=
  invoke (Call.DeploymentsCreate c.ns d) 0 (c.cluster.createDeployment c.ns d) Payload.deployment

/-- Method `List` of the deployments client; the value is `list.Items`. -/
def DeploymentInterface.List {σ : Type} (c : DeploymentInterface σ) (opts : ListOptions) :
    Prog σ (Except GoError (List Deployment)) :=
  invoke (Call.DeploymentsList c.ns opts) 0 (c.cluster.listDeployments c.ns opts) Payload.deployments

/-- Method `Get` of the deployments client. -/
def DeploymentInterface.Get {σ : Type} (c : DeploymentInterface σ) (retriesLeft : Nat)
    (name : String) : Prog σ (Except GoError Deployment) :=
  invoke (Call.DeploymentsGet c.ns name) retriesLeft (c.cluster.getDeployment c.ns name)
    Payload.deployment

/-- Method `Update` of the deployments client. -/
def DeploymentInterface.Update {σ : Type} (c : DeploymentInterface σ) (retriesLeft : Nat)
    (d : Deployment) : Prog σ (Except GoError Deployment) :=
  invoke (Call.DeploymentsUpdate c.ns d) retriesLeft (c.cluster.updateDeployment c.ns d)
    Payload.deployment

/-- Method `Delete` of the deployments client. -/
def DeploymentInterface.Delete {σ : Type} (c : DeploymentInterface σ) (name : String)
    (opts : DeleteOptions) : Prog σ (Except GoError Unit) :=
  invoke (Call.DeploymentsDelete c.ns name opts) 0 (c.cluster.deleteDeployment c.ns name opts)
    (fun _ => Payload.unit)

/-- Method `Create` of the namespaces client. -/
def NamespaceInterface.Create {σ : Type} (c : NamespaceInterface σ) (n : Namespace) :
    Prog σ (Except GoError Namespace) :=
  invoke (Call.NamespacesCreate n) 0 (c.cluster.createNamespace n) Payload.namespace1

/-- Method `List` of the namespaces client; the value is `namespacelist.Items`. -/
def NamespaceInterface.List {σ : Type} (c : NamespaceInterface σ) (opts : ListOptions) :
    Prog σ (Except GoError (List Namespace)) :=
  invoke (Call.NamespacesList opts) 0 (c.cluster.listNamespaces opts) Payload.namespaces

/-- Method `Delete` of the namespaces client. -/
def NamespaceInterface.Delete {σ : Type} (c : NamespaceInterface σ) (name : String)
    (opts : DeleteOptions) : Prog σ (Except GoError Unit) :=
  invoke (Call.NamespacesDelete name opts) 0 (c.cluster.deleteNamespace name opts)
    (fun _ => Payload.unit)

/-- Method `Create` of the services client. -/
def ServiceInterface.Create {σ : Type} (c : ServiceInterface σ) (s : Service) :
    Prog σ (Except GoError Service) :=
  invoke (Call.ServicesCreate c.ns s) 0 (c.cluster.createService c.ns s) Payload.service

/-- Method `Delete` of the services client. -/
def ServiceInterface.Delete {σ : Type} (c : ServiceInterface σ) (name : String)
    (opts : DeleteOptions) : Prog σ (Except GoError Unit) :=
  invoke (Call.ServicesDelete c.ns name opts) 0 (c.cluster.deleteService c.ns name opts)
    (fun _ => Payload.unit)

/-! ## Retry on conflict -/

/-- Modelled from the spec: the loop of the client library's `retry.RetryOnConflict`, which is
not part of the repository ("if the update is rejected due to a concurrent modification,
retry the fetch-modify-submit cycle a bounded number of times").  `fn` is run; a nil error
ends the loop with nil, a conflict starts another attempt while the policy has attempts
left, any other error is returned at once; when the attempts are used up the last conflict
is returned.  The argument handed to `fn` is the number of attempts left after the current
one; the backoff sleeps are timing and are left out. -/
def retryLoop {σ : Type} (fn : Nat → Prog σ (Option GoError)) :
    Nat → Option GoError → Prog σ (Option GoError)
  | 0, lastErr => pure lastErr
  | k + 1, _ => do
    let err ← fn k
    match err with
    | none => pure none
    | some e => if IsConflict e then retryLoop fn k (some e) else pure (some e)

/-- Function `retry.RetryOnConflict`. -/
def RetryOnConflict {σ : Type} (backoff : Backoff) (fn : Nat → Prog σ (Option GoError)) :
    Prog σ (Option GoError) :=
  retryLoop fn backoff.Steps none

/-! ## The script -/

/-- The loop `for _, d := range list.Items { fmt.Printf(..., d.Name, *d.Spec.Replicas) }`
(lines 91-93, 122-124, 219-221, 285-287); dereferencing a nil `Replicas` panics. -/
def printDeployments {σ : Type} : List Deployment → Prog σ Unit
  | [] => pure ()
  | d :: rest =>
    match d.Spec.Replicas with
    | none => panic PanicValue.nilPointerDereference
    | some n => do
      Printf " * %s (%d replicas)\n" [Arg.str d.ObjectMeta.Name, Arg.int n]
      printDeployments rest

/-- The loop `for _, namespaceL := range namespacelist.Items { fmt.Println(namespaceL.Name) }`
(lines 163-165). -/
def printNamespaces {σ : Type} : List Namespace → Prog σ Unit
  | [] => pure ()
  | n :: rest => do
    Println [Arg.str n.ObjectMeta.Name]
    printNamespaces rest

/-- The assignment `result.Spec.Template.Spec.Containers[0].Image = image`; `none` when the
index is out of range. -/
def setImage0 (result : Deployment) (image : String) : Option Deployment :=
  match result.Spec.Template.Spec.Containers with
  | [] => none
  | c :: cs =>
    some { result with
      Spec := { result.Spec with
        Template := { result.Spec.Template with
          Spec := { result.Spec.Template.Spec with
            Containers := { c with Image := image } :: cs } } } }

/-- The function handed to `retry.RetryOnConflict` (lines 99-109 with `replicas = 1`,
lines 227-237 with `replicas = 5`); `deploymentsClient` is the captured variable. -/
def updateClosure {σ : Type} (deploymentsClient : DeploymentInterface σ) (replicas : Int)
    (retriesLeft : Nat) : Prog σ (Option GoError) := do
  let got ← deploymentsClient.Get retriesLeft "demo-deployment"
  match got with
  | Except.error getErr =>
    panic (PanicValue.Errorf "Failed to get latest version of Deployment: %v" getErr)
  | Except.ok result =>
    let result := { result with Spec := { result.Spec with Replicas := int32Ptr replicas } }
    match setImage0 result "nginx:1.13" with
    | none => panic PanicValue.indexOutOfRange
    | some result => do
      let updated ← deploymentsClient.Update retriesLeft result
      match updated with
      | Except.error updateErr => pure (some updateErr)
      | Except.ok _ => pure none

/-- The test `if retryErr != nil { panic(fmt.Errorf("Update failed: %v", retryErr)) }`. -/
def checkRetry {σ : Type} (retryErr : Option GoError) : Prog σ Unit :=
  match retryErr with
  | some e => panic (PanicValue.Errorf "Update failed: %v" e)
  | none => pure ()

/-- Lines 39-135 of `main`: the deployment in the default namespace. -/
def firstResource {σ : Type} (env : Env σ) (clientset : Cluster σ) : Prog σ Unit := do
  Println [Arg.str "Creating first resource in default namespace..."]
  let deploymentsClient : DeploymentInterface σ := { cluster := clientset, ns := NamespaceDefault }
  Println [Arg.str "Creating deployment..."]
  let created ← deploymentsClient.Create deployment
  let result ← check created
  Printf "Created deployment %q.\n" [Arg.str result.ObjectMeta.Name]
  prompt env
  Printf "Listing deployments in namespace %q:\n" [Arg.str NamespaceDefault]
  let listed ← deploymentsClient.List {}
  let list ← check listed
  printDeployments list
  prompt env
  Println [Arg.str "Updating deployment..."]
  let retryErr ← RetryOnConflict env.DefaultRetry (updateClosure deploymentsClient 1)
  checkRetry retryErr
  Println [Arg.str "Updated deployment..."]
  prompt env
  Printf "Listing deployments in namespace %q:\n" [Arg.str NamespaceDefault]
  let listed ← deploymentsClient.List {}
  let list ← check listed
  printDeployments list
  prompt env
  Println [Arg.str "Deleting deployment..."]
  let deletePolicy := DeletionPropagation.DeletePropagationForeground
  let deleted ← deploymentsClient.Delete "demo-deployment" { PropagationPolicy := some deletePolicy }
  check deleted
  Println [Arg.str "Deleted deployment."]

/-- Lines 138-320 of `main`: namespace, deployment and service in `test-namespace`. -/
def secondResource {σ : Type} (env : Env σ) (clientset : Cluster σ) : Prog σ Unit := do
  Println [Arg.str "Creating Second Resource"]
  let namespaceClient : NamespaceInterface σ := { cluster := clientset }
  Println [Arg.str "Creating namespace..."]
  let created ← namespaceClient.Create namespace1
  let namespaceresult ← check created
  Printf "Created namespace %q.\n" [Arg.str namespaceresult.ObjectMeta.Name]
  prompt env
  Println [Arg.str "Listing Namespaces"]
  let listed ← namespaceClient.List {}
  let namespacelist ← check listed
  printNamespaces namespacelist
  Printf "Creating deployments in namespace %q:\n" [Arg.str "test-namespace"]
  let deploymentsClient : DeploymentInterface σ := { cluster := clientset, ns := "test-namespace" }
  Println [Arg.str "Creating deployment..."]
  let created ← deploymentsClient.Create deployment2
  let result ← check created
  Printf "Created deployment %q.\n" [Arg.str result.ObjectMeta.Name]
  prompt env
  Printf "Listing deployments in namespace %q:\n" [Arg.str "test-namespace"]
  let listed ← deploymentsClient.List {}
  let list ← check listed
  printDeployments list
  prompt env
  Println [Arg.str "Updating deployment..."]
  let retryErr ← RetryOnConflict env.DefaultRetry (updateClosure deploymentsClient 5)
  checkRetry retryErr
  Println [Arg.str "Updated deployment..."]
  Printf "Creating service in namespace %q:\n" [Arg.str "test-namespace"]
  let serviceNpClient : ServiceInterface σ := { cluster := clientset, ns := "test-namespace" }
  Println [Arg.str "Creating service"]
  let created ← serviceNpClient.Create serviceNp
  let serviceResult ← check created
  Printf "Created service %q.\n" [Arg.str serviceResult.ObjectMeta.Name]
  prompt env
  let labelSelector := "app=" ++ "demo"
  Println [Arg.str labelSelector]
  Printf "Listing deployments using label selector in namespace %q:\n" [Arg.str "test-namespace"]
  let listed ← deploymentsClient.List { LabelSelector := labelSelector }
  let list ← check listed
  printDeployments list
  prompt env
  Println [Arg.str "Deleting deployment..."]
  let deletePolicy := DeletionPropagation.DeletePropagationForeground
  let deleted ← deploymentsClient.Delete "demo-deployment" { PropagationPolicy := some deletePolicy }
  check deleted
  Println [Arg.str "Deleted deployment."]
  prompt env
  Println [Arg.str "Deletig Service..."]
  let deleteServiceNpPolicy := DeletionPropagation.DeletePropagationForeground
  let deleted ← serviceNpClient.Delete "service-np" { PropagationPolicy := some deleteServiceNpPolicy }
  check deleted
  Println [Arg.str "Deleted Service"]
  prompt env
  Println [Arg.str "Deletig Namespace..."]
  let deleteNameSpacePolicy := DeletionPropagation.DeletePropagationForeground
  let deleted ← namespaceClient.Delete "test-namespace" { PropagationPolicy := some deleteNameSpacePolicy }
  check deleted
  Println [Arg.str "Deleted Namespace"]

/-- Lines 22-27 and 28: the value of `*kubeconfig` after `flag.Parse()`. -/
def kubeconfig {σ : Type} (env : Env σ) : String :=
  match env.kubeconfigFlag with
  | some path => path
  | none => if env.HomeDir ≠ "" then env.Join [env.HomeDir, ".kube", "config"] else ""

/-- Function `main` (lines 21-322). -/
def main {σ : Type} (env : Env σ) : Prog σ Unit := do
  let built ← BuildConfigFromFlags env "" (kubeconfig env)
  let config ← check built
  let made ← NewForConfig env config
  let clientset ← check made
  firstResource env clientset
  secondResource env clientset

/-- The world in which the process starts on cluster state `s`. -/
def World.start {σ : Type} (s : σ) : World σ :=
  { cluster := s, reads := 0, stdout := [], trace := [] }

/-! ## A cluster without interfering actors -/

/-- Modelled from the spec: the state of the external cluster, which is not part of the
repository: the resources of each kind, partitioned by namespace scope ("a named partition
of the cluster's resource space"), and the counter from which resource versions are drawn. -/
structure Store where
  deployments : String → List Deployment
  services : String → List Service
  namespaces : List Namespace
  revision : Nat

/-- The error of the given class. -/
def statusError (reason : StatusReason) : GoError := { Reason := reason }

/-- Split a list of characters at every occurrence of `sep`. -/
def splitChars (sep : Char) : List Char → List (List Char)
  | [] => [[]]
  | c :: cs =>
    if c = sep then [] :: splitChars sep cs
    else
      match splitChars sep cs with
      | [] => [[c]]
      | h :: t => (c :: h) :: t

/-- Modelled from the spec: the equality requirements `key=value`, separated by commas, of a
label selector string; the empty string has none.  `none` when a requirement is not of that
shape. -/
def parseSelector (selector : String) : Option Labels :=
  if selector = "" then some []
  else
    (splitChars ',' selector.data).mapM (fun req =>
      match splitChars '=' req with
      | [k, v] => some (String.mk k, String.mk v)
      | _ => none)

/-- Modelled from the spec: a resource passes a selector when its own metadata labels
contain every required pair. -/
def labelsMatch (required : Labels) (meta : ObjectMeta) : Bool :=
  required.all (fun kv => meta.Labels.contains kv)

/-- The object as the cluster stores it in scope `ns` at revision `rev`. -/
def stamp (meta : ObjectMeta) (ns : String) (rev : Nat) : ObjectMeta :=
  { meta with Namespace := ns, ResourceVersion := toString rev }

/-- Modelled from the spec: "create (fails if name already exists in scope)". -/
def Store.createDeployment (ns : String) (d : Deployment) (s : Store) :
    Except GoError Deployment × Store :=
  if (s.deployments ns).any (fun e => decide (e.ObjectMeta.Name = d.ObjectMeta.Name)) then
    (Except.error (statusError StatusReason.StatusReasonAlreadyExists), s)
  else
    let stored : Deployment := { d with ObjectMeta := stamp d.ObjectMeta ns (s.revision + 1) }
    (Except.ok stored,
      { s with deployments := fun n => if n = ns then s.deployments ns ++ [stored] else s.deployments n
               revision := s.revision + 1 })

/-- Modelled from the spec: "list (optionally filtered by label selector, returns a
snapshot)". -/
def Store.listDeployments (ns : String) (opts : ListOptions) (s : Store) :
    Except GoError (List Deployment) × Store :=
  match parseSelector opts.LabelSelector with
  | none => (Except.error (statusError StatusReason.StatusReasonUnknown), s)
  | some required => (Except.ok ((s.deployments ns).filter (fun d => labelsMatch required d.ObjectMeta)), s)

/-- Modelled from the spec: "get-by-name (fails if absent)". -/
def Store.getDeployment (ns name : String) (s : Store) : Except GoError Deployment × Store :=
  match (s.deployments ns).find? (fun e => decide (e.ObjectMeta.Name = name)) with
  | some d => (Except.ok d, s)
  | none => (Except.error (statusError StatusReason.StatusReasonNotFound), s)

/-- Modelled from the spec: "update (fails on stale-version conflict, triggering retry)";
an absent resource is not found. -/
def Store.updateDeployment (ns : String) (d : Deployment) (s : Store) :
    Except GoError Deployment × Store :=
  match (s.deployments ns).find? (fun e => decide (e.ObjectMeta.Name = d.ObjectMeta.Name)) with
  | none => (Except.error (statusError StatusReason.StatusReasonNotFound), s)
  | some current =>
    if d.ObjectMeta.ResourceVersion ≠ current.ObjectMeta.ResourceVersion then
      (Except.error (statusError StatusReason.StatusReasonConflict), s)
    else
      let stored : Deployment := { d with ObjectMeta := stamp d.ObjectMeta ns (s.revision + 1) }
      (Except.ok stored,
        { s with deployments := fun n =>
                   if n = ns then
                     (s.deployments ns).map (fun e =>
                       if e.ObjectMeta.Name = d.ObjectMeta.Name then stored else e)
                   else s.deployments n
                 revision := s.revision + 1 })

/-- Modelled from the spec: "delete (accepts a propagation policy ...)": the resource is gone
when the call returns; an absent resource is not found. -/
def Store.deleteDeployment (ns name : String) (_opts : DeleteOptions) (s : Store) :
    Except GoError Unit × Store :=
  if (s.deployments ns).any (fun e => decide (e.ObjectMeta.Name = name)) then
    (Except.ok (),
      { s with deployments := fun n =>
                 if n = ns then (s.deployments ns).filter (fun e => decide (e.ObjectMeta.Name ≠ name))
                 else s.deployments n })
  else (Except.error (statusError StatusReason.StatusReasonNotFound), s)

/-- Modelled from the spec: create of a namespace, failing when the name exists. -/
def Store.createNamespace (n : Namespace) (s : Store) : Except GoError Namespace × Store :=
  if s.namespaces.any (fun e => decide (e.ObjectMeta.Name = n.ObjectMeta.Name)) then
    (Except.error (statusError StatusReason.StatusReasonAlreadyExists), s)
  else
    let stored : Namespace := { n with ObjectMeta := stamp n.ObjectMeta "" (s.revision + 1) }
    (Except.ok stored, { s with namespaces := s.namespaces ++ [stored], revision := s.revision + 1 })

/-- Modelled from the spec: list of the namespaces. -/
def Store.listNamespaces (opts : ListOptions) (s : Store) :
    Except GoError (List Namespace) × Store :=
  match parseSelector opts.LabelSelector with
  | none => (Except.error (statusError StatusReason.StatusReasonUnknown), s)
  | some required => (Except.ok (s.namespaces.filter (fun n => labelsMatch required n.ObjectMeta)), s)

/-- Modelled from the spec: delete of a namespace, failing when it is absent. -/
def Store.deleteNamespace (name : String) (_opts : DeleteOptions) (s : Store) :
    Except GoError Unit × Store :=
  if s.namespaces.any (fun e => decide (e.ObjectMeta.Name = name)) then
    (Except.ok (),
      { s with namespaces := s.namespaces.filter (fun e => decide (e.ObjectMeta.Name ≠ name)) })
  else (Except.error (statusError StatusReason.StatusReasonNotFound), s)

/-- Modelled from the spec: create of a service, failing when the name exists in scope. -/
def Store.createService (ns : String) (svc : Service) (s : Store) :
    Except GoError Service × Store :=
  if (s.services ns).any (fun e => decide (e.ObjectMeta.Name = svc.ObjectMeta.Name)) then
    (Except.error (statusError StatusReason.StatusReasonAlreadyExists), s)
  else
    let stored : Service := { svc with ObjectMeta := stamp svc.ObjectMeta ns (s.revision + 1) }
    (Except.ok stored,
      { s with services := fun n => if n = ns then s.services ns ++ [stored] else s.services n
               revision := s.revision + 1 })

/-- Modelled from the spec: delete of a service, failing when it is absent. -/
def Store.deleteService (ns name : String) (_opts : DeleteOptions) (s : Store) :
    Except GoError Unit × Store :=
  if (s.services ns).any (fun e => decide (e.ObjectMeta.Name = name)) then
    (Except.ok (),
      { s with services := fun n =>
                 if n = ns then (s.services ns).filter (fun e => decide (e.ObjectMeta.Name ≠ name))
                 else s.services n })
  else (Except.error (statusError StatusReason.StatusReasonNotFound), s)

/-- Modelled from the spec: the API of section 6 over a `Store` that nobody else touches. -/
def storeCluster : Cluster Store :=
  { createDeployment := Store.createDeployment
    listDeployments := Store.listDeployments
    getDeployment := Store.getDeployment
    updateDeployment := Store.updateDeployment
    deleteDeployment := Store.deleteDeployment
    createNamespace := Store.createNamespace
    listNamespaces := Store.listNamespaces
    deleteNamespace := Store.deleteNamespace
    createService := Store.createService
    deleteService := Store.deleteService }

/-- A process environment whose credentials load and whose client talks to `storeCluster`. -/
def storeEnv (stdin : Nat → ScanResult) (retry : Backoff) : Env Store :=
  { HomeDir := "/root"
    Join := fun parts => "/".intercalate parts
    kubeconfigFlag := none
    BuildConfigFromFlags := fun _ _ => Except.ok {}
    NewForConfig := fun _ => Except.ok storeCluster
    DefaultRetry := retry
    Stdin := stdin }

/-- A cluster holding nothing but the `default` namespace. -/
def emptyStore : Store :=
  { deployments := fun _ => []
    services := fun _ => []
    namespaces := [{ ObjectMeta := { Name := "default" } }]
    revision := 0 }

/-- The retry policy `retry.DefaultRetry` of the client library: five attempts. -/
def DefaultRetry : Backoff := { Steps := 5 }

/-! ## Shapes of runs -/

/-- A call with the arguments that depend on what the cluster returned left out. -/
inductive Step where
  | BuildConfigFromFlags (masterUrl kubeconfigPath : String)
  | NewForConfig
  | Scan
  | DeploymentsCreate (ns : String) (d : Deployment)
  | DeploymentsList (ns : String) (opts : ListOptions)
  | DeploymentsGet (ns name : String)
  | DeploymentsUpdate (ns : String)
  | DeploymentsDelete (ns name : String) (opts : DeleteOptions)
  | NamespacesCreate (n : Namespace)
  | NamespacesList (opts : ListOptions)
  | NamespacesDelete (name : String) (opts : DeleteOptions)
  | ServicesCreate (ns : String) (s : Service)
  | ServicesDelete (ns name : String) (opts : DeleteOptions)
deriving DecidableEq, Repr

/-- The step a call belongs to. -/
def Call.step : Call → Step
  | Call.BuildConfigFromFlags m k => Step.BuildConfigFromFlags m k
  | Call.NewForConfig _ => Step.NewForConfig
  | Call.Scan => Step.Scan
  | Call.DeploymentsCreate ns d => Step.DeploymentsCreate ns d
  | Call.DeploymentsList ns opts => Step.DeploymentsList ns opts
  | Call.DeploymentsGet ns name => Step.DeploymentsGet ns name
  | Call.DeploymentsUpdate ns _ => Step.DeploymentsUpdate ns
  | Call.DeploymentsDelete ns name opts => Step.DeploymentsDelete ns name opts
  | Call.NamespacesCreate n => Step.NamespacesCreate n
  | Call.NamespacesList opts => Step.NamespacesList opts
  | Call.NamespacesDelete name opts => Step.NamespacesDelete name opts
  | Call.ServicesCreate ns s => Step.ServicesCreate ns s
  | Call.ServicesDelete ns name opts => Step.ServicesDelete ns name opts

/-- The step of a logged call. -/
def Event.step (e : Event) : Step := e.call.step

/-- Whether the step is a call to the cluster API (not credentials, client or console). -/
def Step.isApi : Step → Bool
  | Step.BuildConfigFromFlags _ _ => false
  | Step.NewForConfig => false
  | Step.Scan => false
  | _ => true

/-- The cluster API calls of a trace, in order. -/
def apiCalls (trace : List Event) : List Step :=
  (trace.map Event.step).filter Step.isApi

/-- Whether the call is an `Update`. -/
def Call.isUpdate : Call → Bool
  | Call.DeploymentsUpdate _ _ => true
  | _ => false

/-- Whether the call is a `Get`. -/
def Call.isGet : Call → Bool
  | Call.DeploymentsGet _ _ => true
  | _ => false

/-- The call returned an error, and the error is not an update conflict that the retry
policy still answers with another attempt. -/
def FatalError (e : Event) : Prop :=
  match e.result with
  | Except.error err => ¬ (e.call.isUpdate = true ∧ IsConflict err = true ∧ 0 < e.retriesLeft)
  | Except.ok _ => False

/-- The step of the script that issued the call did not succeed: the call failed for good,
or the script cannot use what came back (a listed deployment without a replica count, whose
dereference panics; a fetched deployment without a container 0). -/
def StepFailed (e : Event) : Prop :=
  match e.result with
  | Except.error err => ¬ (e.call.isUpdate = true ∧ IsConflict err = true ∧ 0 < e.retriesLeft)
  | Except.ok (Payload.deployments items) => ∃ d ∈ items, d.Spec.Replicas = none
  | Except.ok (Payload.deployment d) => e.call.isGet = true ∧ d.Spec.Template.Spec.Containers = []
  | Except.ok _ => False

/-- The steps of `n` fetch-modify-submit attempts in scope `ns`. -/
def attemptSteps (ns : String) : Nat → List Step
  | 0 => []
  | n + 1 => Step.DeploymentsGet ns "demo-deployment" :: Step.DeploymentsUpdate ns :: attemptSteps ns n

/-- The foreground delete options used by every delete of the script. -/
def foreground : DeleteOptions :=
  { PropagationPolicy := some DeletionPropagation.DeletePropagationForeground }

/-- The fixed list of cluster API calls of a run in which every step succeeds, the first
update step taking `n1` attempts and the second `n2`. -/
def fixedSequence (n1 n2 : Nat) : List Step :=
  [Step.DeploymentsCreate "default" deployment,
   Step.DeploymentsList "default" {}]
  ++ attemptSteps "default" n1 ++
  [Step.DeploymentsList "default" {},
   Step.DeploymentsDelete "default" "demo-deployment" foreground,
   Step.NamespacesCreate namespace1,
   Step.NamespacesList {},
   Step.DeploymentsCreate "test-namespace" deployment2,
   Step.DeploymentsList "test-namespace" {}]
  ++ attemptSteps "test-namespace" n2 ++
  [Step.ServicesCreate "test-namespace" serviceNp,
   Step.DeploymentsList "test-namespace" { LabelSelector := "app=demo" },
   Step.DeploymentsDelete "test-namespace" "demo-deployment" foreground,
   Step.ServicesDelete "test-namespace" "service-np" foreground,
   Step.NamespacesDelete "test-namespace" foreground]

/-- The success path: every step of a run in which all succeed, console pauses included. -/
def successPath (kubeconfigPath : String) (n1 n2 : Nat) : List Step :=
  [Step.BuildConfigFromFlags "" kubeconfigPath,
   Step.NewForConfig,
   Step.DeploymentsCreate "default" deployment,
   Step.Scan,
   Step.DeploymentsList "default" {},
   Step.Scan]
  ++ attemptSteps "default" n1 ++
  [Step.Scan,
   Step.DeploymentsList "default" {},
   Step.Scan,
   Step.DeploymentsDelete "default" "demo-deployment" foreground,
   Step.NamespacesCreate namespace1,
   Step.Scan,
   Step.NamespacesList {},
   Step.DeploymentsCreate "test-namespace" deployment2,
   Step.Scan,
   Step.DeploymentsList "test-namespace" {},
   Step.Scan]
  ++ attemptSteps "test-namespace" n2 ++
  [Step.ServicesCreate "test-namespace" serviceNp,
   Step.Scan,
   Step.DeploymentsList "test-namespace" { LabelSelector := "app=demo" },
   Step.Scan,
   Step.DeploymentsDelete "test-namespace" "demo-deployment" foreground,
   Step.Scan,
   Step.ServicesDelete "test-namespace" "service-np" foreground,
   Step.Scan,
   Step.NamespacesDelete "test-namespace" foreground]

/-- A description of the paths a piece of the script can take: single steps and retried
update steps, in sequence. -/
inductive Pattern where
  | done
  | call (s : Step) (rest : Pattern)
  | attempts (ns : String) (max : Nat) (rest : Pattern)

/-- The complete paths of a pattern. -/
def Pattern.Matches : Pattern → List Step → Prop
  | Pattern.done, t => t = []
  | Pattern.call s rest, t => ∃ t1, t = s :: t1 ∧ rest.Matches t1
  | Pattern.attempts ns max rest, t =>
    ∃ n t1, 1 ≤ n ∧ n ≤ max ∧ t = attemptSteps ns n ++ t1 ∧ rest.Matches t1

/-- The paths of a pattern that stop early, at a step that was started. -/
def Pattern.Stops : Pattern → List Step → Prop
  | Pattern.done, _ => False
  | Pattern.call s rest, t => t = [s] ∨ ∃ t1, t = s :: t1 ∧ rest.Stops t1
  | Pattern.attempts ns max rest, t =>
    (∃ n, 1 ≤ n ∧ n ≤ max ∧ t <+: attemptSteps ns n) ∨
    ∃ n t1, 1 ≤ n ∧ n ≤ max ∧ t = attemptSteps ns n ++ t1 ∧ rest.Stops t1

/-- Every retried step of the pattern allows at least one attempt. -/
def Pattern.Positive : Pattern → Prop
  | Pattern.done => True
  | Pattern.call _ rest => rest.Positive
  | Pattern.attempts _ max rest => 0 < max ∧ rest.Positive

/-- The pattern of lines 138-320. -/
def secondPattern (steps : Nat) : Pattern :=
  Pattern.call (Step.NamespacesCreate namespace1) <|
  Pattern.call Step.Scan <|
  Pattern.call (Step.NamespacesList {}) <|
  Pattern.call (Step.DeploymentsCreate "test-namespace" deployment2) <|
  Pattern.call Step.Scan <|
  Pattern.call (Step.DeploymentsList "test-namespace" {}) <|
  Pattern.call Step.Scan <|
  Pattern.attempts "test-namespace" steps <|
  Pattern.call (Step.ServicesCreate "test-namespace" serviceNp) <|
  Pattern.call Step.Scan <|
  Pattern.call (Step.DeploymentsList "test-namespace" { LabelSelector := "app=demo" }) <|
  Pattern.call Step.Scan <|
  Pattern.call (Step.DeploymentsDelete "test-namespace" "demo-deployment" foreground) <|
  Pattern.call Step.Scan <|
  Pattern.call (Step.ServicesDelete "test-namespace" "service-np" foreground) <|
  Pattern.call Step.Scan <|
  Pattern.call (Step.NamespacesDelete "test-namespace" foreground) <|
  Pattern.done

/-- The pattern of lines 39-135, followed by `rest`. -/
def firstPattern (steps : Nat) (rest : Pattern) : Pattern :=
  Pattern.call (Step.DeploymentsCreate "default" deployment) <|
  Pattern.call Step.Scan <|
  Pattern.call (Step.DeploymentsList "default" {}) <|
  Pattern.call Step.Scan <|
  Pattern.attempts "default" steps <|
  Pattern.call Step.Scan <|
  Pattern.call (Step.DeploymentsList "default" {}) <|
  Pattern.call Step.Scan <|
  Pattern.call (Step.DeploymentsDelete "default" "demo-deployment" foreground) <|
  rest

/-- The pattern of `main`. -/
def mainPattern (kubeconfigPath : String) (steps : Nat) : Pattern :=
  Pattern.call (Step.BuildConfigFromFlags "" kubeconfigPath) <|
  Pattern.call Step.NewForConfig <|
  firstPattern steps (secondPattern steps)

/-- The events `new` of a finished piece of the script fit the pattern: either the piece
ended normally, every step in `new` succeeded and `new` is a complete path of `pat`, or it
panicked, the last step of `new` failed, all earlier ones succeeded, and `new` is a path of
`pat` that stops there. -/
def Shaped {α : Type} (pat : Pattern) (r : Res α) (new : List Event) : Prop :=
  ((∃ a, r = Res.ok a) ∧ (∀ e ∈ new, ¬ StepFailed e) ∧ pat.Matches (new.map Event.step)) ∨
  ((∃ v, r = Res.panic v) ∧ pat.Stops (new.map Event.step) ∧
    ∃ pre e, new = pre ++ [e] ∧ (∀ x ∈ pre, ¬ StepFailed x) ∧ StepFailed e)

/-- Every run of `p` appends to the log events that fit the pattern `pat`. -/
def Sound {σ α : Type} (p : Prog σ α) (pat : Pattern) : Prop :=
  ∀ w : World σ, ∃ new, (p w).2.trace = w.trace ++ new ∧ Shaped pat (p w).1 new

/-- A run of `p` appends to the log a list of events with property `P`. -/
def Appends {σ α : Type} (P : List Event → Prop) (p : Prog σ α) : Prop :=
  ∀ w : World σ, ∃ new, (p w).2.trace = w.trace ++ new ∧ P new

/-- A piece of the script that logs nothing and cannot panic. -/
def Silent {σ α : Type} (p : Prog σ α) : Prop :=
  ∀ w : World σ, (∃ a, (p w).1 = Res.ok a) ∧ (p w).2.trace = w.trace

/-! ## Vocabulary of the statements -/

/-- The world after the pause has printed its message and read the console. -/
def World.paused {σ : Type} (env : Env σ) (w : World σ) : World σ :=
  { w with reads := w.reads + 1
           stdout := w.stdout ++ [Output.Printf "-> Press Return key to continue." []]
           trace := w.trace ++
             [{ call := Call.Scan, retriesLeft := 0, result := (env.Stdin w.reads).logged }] }

/-- The local changes of the update function: the replica count and the image of
container 0 of the fetched object. -/
def modified (replicas : Int) (fetched : Deployment) : Option Deployment :=
  setImage0 { fetched with Spec := { fetched.Spec with Replicas := int32Ptr replicas } } "nginx:1.13"

/-- The log entry of the `Get` of an attempt. -/
def getEvent (ns : String) (retriesLeft : Nat) (r : Except GoError Deployment) : Event :=
  { call := Call.DeploymentsGet ns "demo-deployment", retriesLeft := retriesLeft,
    result := r.map Payload.deployment }

/-- The log entry of the `Update` of an attempt. -/
def updateEvent (ns : String) (obj : Deployment) (retriesLeft : Nat)
    (r : Except GoError Deployment) : Event :=
  { call := Call.DeploymentsUpdate ns obj, retriesLeft := retriesLeft,
    result := r.map Payload.deployment }

/-- The Go `error` of a result. -/
def errorOf {α : Type} (r : Except GoError α) : Option GoError :=
  match r with
  | Except.error e => some e
  | Except.ok _ => none

/-- The update function of each scope writes the replica count of that scope. -/
def replicasFor (ns : String) : Int :=
  if ns = "default" then 1 else 5

/-- An `Update` is built from the `Get` logged just before it: `e`, when it is an `Update`,
follows the successful `Get` of the same attempt in the same scope, and the object it submits
is the fetched object with the local changes of that scope. -/
def Follows (prev : Option Event) (e : Event) : Prop :=
  ∀ ns obj, e.call = Call.DeploymentsUpdate ns obj →
    (ns = "default" ∨ ns = "test-namespace") ∧
    ∃ fetched, prev = some (getEvent ns e.retriesLeft (Except.ok fetched)) ∧
      modified (replicasFor ns) fetched = some obj

/-- Every `Update` of the list follows its `Get`, the event before the list being `prev`. -/
def FreshFrom : Option Event → List Event → Prop
  | _, [] => True
  | prev, e :: rest => Follows prev e ∧ FreshFrom (some e) rest

/-- The deployment `d` as the store keeps it in scope `ns` at revision `rev`. -/
def stored (d : Deployment) (ns : String) (rev : Nat) : Deployment :=
  { d with ObjectMeta := stamp d.ObjectMeta ns rev }

/-- The log entry of the console read number `n`. -/
def scanEvent (stdin : Nat → ScanResult) (n : Nat) : Event :=
  { call := Call.Scan, retriesLeft := 0, result := (stdin n).logged }

/-- The object the update function of scope `ns` submits for the fetched object `d`. -/
def submitted (replicas : Int) (d : Deployment) : Deployment :=
  (modified replicas d).getD d

/-- The log of credentials loading and client construction when both succeed with the
empty configuration. -/
def setupTrace {σ : Type} (env : Env σ) : List Event :=
  [{ call := Call.BuildConfigFromFlags "" (kubeconfig env), retriesLeft := 0,
     result := Except.ok (Payload.config {}) },
   { call := Call.NewForConfig {}, retriesLeft := 0, result := Except.ok Payload.unit }]

/-- The log of lines 39-135 on a store whose default scope was empty, at revision `rev`
after `reads` console reads, the retry policy allowing `j + 1` attempts. -/
def firstTrace (stdin : Nat → ScanResult) (j rev reads : Nat) : List Event :=
  [{ call := Call.DeploymentsCreate "default" deployment, retriesLeft := 0,
     result := Except.ok (Payload.deployment (stored deployment "default" (rev + 1))) },
   scanEvent stdin reads,
   { call := Call.DeploymentsList "default" {}, retriesLeft := 0,
     result := Except.ok (Payload.deployments [stored deployment "default" (rev + 1)]) },
   scanEvent stdin (reads + 1),
   getEvent "default" j (Except.ok (stored deployment "default" (rev + 1))),
   updateEvent "default" (submitted 1 (stored deployment "default" (rev + 1))) j
     (Except.ok (stored (submitted 1 (stored deployment "default" (rev + 1))) "default" (rev + 2))),
   scanEvent stdin (reads + 2),
   { call := Call.DeploymentsList "default" {}, retriesLeft := 0,
     result := Except.ok (Payload.deployments
       [stored (submitted 1 (stored deployment "default" (rev + 1))) "default" (rev + 2)]) },
   scanEvent stdin (reads + 3),
   { call := Call.DeploymentsDelete "default" "demo-deployment" foreground, retriesLeft := 0,
     result := Except.ok Payload.unit }]

/-- The log of lines 138-320 on a store without `test-namespace`, at revision `rev` after
`reads` console reads, `namespaces` being the namespaces that exist. -/
def secondTrace (stdin : Nat → ScanResult) (j rev reads : Nat) (namespaces : List Namespace) :
    List Event :=
  [{ call := Call.NamespacesCreate namespace1, retriesLeft := 0,
     result := Except.ok (Payload.namespace1
       { ObjectMeta := stamp namespace1.ObjectMeta "" (rev + 1) }) },
   scanEvent stdin reads,
   { call := Call.NamespacesList {}, retriesLeft := 0,
     result := Except.ok (Payload.namespaces (namespaces ++
       [{ ObjectMeta := stamp namespace1.ObjectMeta "" (rev + 1) }])) },
   { call := Call.DeploymentsCreate "test-namespace" deployment2, retriesLeft := 0,
     result := Except.ok (Payload.deployment (stored deployment2 "test-namespace" (rev + 2))) },
   scanEvent stdin (reads + 1),
   { call := Call.DeploymentsList "test-namespace" {}, retriesLeft := 0,
     result := Except.ok (Payload.deployments [stored deployment2 "test-namespace" (rev + 2)]) },
   scanEvent stdin (reads + 2),
   getEvent "test-namespace" j (Except.ok (stored deployment2 "test-namespace" (rev + 2))),
   updateEvent "test-namespace" (submitted 5 (stored deployment2 "test-namespace" (rev + 2))) j
     (Except.ok (stored (submitted 5 (stored deployment2 "test-namespace" (rev + 2)))
       "test-namespace" (rev + 3))),
   { call := Call.ServicesCreate "test-namespace" serviceNp, retriesLeft := 0,
     result := Except.ok (Payload.service
       { serviceNp with ObjectMeta := stamp serviceNp.ObjectMeta "test-namespace" (rev + 4) }) },
   scanEvent stdin (reads + 3),
   { call := Call.DeploymentsList "test-namespace" { LabelSelector := "app=demo" },
     retriesLeft := 0, result := Except.ok (Payload.deployments []) },
   scanEvent stdin (reads + 4),
   { call := Call.DeploymentsDelete "test-namespace" "demo-deployment" foreground,
     retriesLeft := 0, result := Except.ok Payload.unit },
   scanEvent stdin (reads + 5),
   { call := Call.ServicesDelete "test-namespace" "service-np" foreground,
     retriesLeft := 0, result := Except.ok Payload.unit },
   scanEvent stdin (reads + 6),
   { call := Call.NamespacesDelete "test-namespace" foreground,
     retriesLeft := 0, result := Except.ok Payload.unit }]

/-- A cluster in which a deployment named `demo-deployment` is left over in the default
scope, as after a run that stopped before its delete. -/
def occupiedStore : Store :=
  { emptyStore with
    deployments := fun ns => if ns = "default" then [stored deployment "default" 1] else []
    revision := 1 }

/-- A console on which every read meets the end of input. -/
def closedStdin : Nat → ScanResult := fun _ => ScanResult.eof

/-- The update step as it stands in `main` (lines 99-112 and 227-240): the retry loop with
`fuel` attempts left, the test of its result, and then the remainder `rest` of the script. -/
def updateStep {σ β : Type} (c : DeploymentInterface σ) (replicas : Int) (rest : Unit → Prog σ β)
    (fuel : Nat) (lastErr : Option GoError) : Prog σ β :=
  retryLoop (updateClosure c replicas) fuel lastErr >>= fun retryErr => checkRetry retryErr >>= rest

/-- The number of `Get` calls in a log. -/
def getCount (trace : List Event) : Nat :=
  (trace.filter (fun e => e.call.isGet)).length

/-- An example of a cluster with an interfering actor: the state is the number of update
races the script is still going to lose.  `Get` returns the descriptor of `main`; `Update`
is rejected with a conflict while races are left and succeeds afterwards; every other
operation succeeds without effect. -/
def contendedCluster : Cluster Nat :=
  { createDeployment := fun _ d n => (Except.ok d, n)
    listDeployments := fun _ _ n => (Except.ok [], n)
    getDeployment := fun _ _ n => (Except.ok deployment, n)
    updateDeployment := fun _ d n =>
      if n = 0 then (Except.ok d, 0)
      else (Except.error (statusError StatusReason.StatusReasonConflict), n - 1)
    deleteDeployment := fun _ _ _ n => (Except.ok (), n)
    createNamespace := fun ns n => (Except.ok ns, n)
    listNamespaces := fun _ n => (Except.ok [], n)
    deleteNamespace := fun _ _ n => (Except.ok (), n)
    createService := fun _ svc n => (Except.ok svc, n)
    deleteService := fun _ _ _ n => (Except.ok (), n) }

/-! # Theorems -/

/-! ## Laws of the program monad -/

section Laws
variable {σ α β γ : Type}

theorem bind_apply (p : Prog σ α) (f : α → Prog σ β) (w : World σ) :
    (p >>= f) w = Prog.bind p f w := rfl

theorem pure_apply (a : α) (w : World σ) : (pure a : Prog σ α) w = (Res.ok a, w) := rfl

theorem bind_of_ok {p : Prog σ α} {f : α → Prog σ β} {w w1 : World σ} {a : α}
    (h : p w = (Res.ok a, w1)) : (p >>= f) w = f a w1 := by
  simp [bind_apply, Prog.bind, h]

theorem bind_of_panic {p : Prog σ α} {f : α → Prog σ β} {w w1 : World σ} {v : PanicValue}
    (h : p w = (Res.panic v, w1)) : (p >>= f) w = (Res.panic v, w1) := by
  simp [bind_apply, Prog.bind, h]

theorem prog_bind_assoc (p : Prog σ α) (f : α → Prog σ β) (g : β → Prog σ γ) :
    (p >>= f) >>= g = p >>= fun a => f a >>= g := by
  funext w
  simp only [bind_apply, Prog.bind]
  rcases p w with ⟨r, w1⟩
  cases r <;> rfl

end Laws

/-! ## Building blocks of the run-shape proofs -/

section Blocks
variable {σ α β : Type}

theorem silent_Println (args : List Arg) : Silent (Println args : Prog σ Unit) :=
  fun _ => ⟨⟨(), rfl⟩, rfl⟩

theorem silent_Printf (format : String) (args : List Arg) :
    Silent (Printf format args : Prog σ Unit) :=
  fun _ => ⟨⟨(), rfl⟩, rfl⟩

theorem silent_pure (a : α) : Silent (pure a : Prog σ α) :=
  fun _ => ⟨⟨a, rfl⟩, rfl⟩

theorem silent_bind {p : Prog σ α} {f : α → Prog σ β} (hp : Silent p) (hf : ∀ a, Silent (f a)) :
    Silent (p >>= f) := by
  intro w
  obtain ⟨⟨a, ha⟩, ht⟩ := hp w
  have h : p w = (Res.ok a, (p w).2) := by rw [← ha]
  rw [bind_of_ok h]
  obtain ⟨hr, ht2⟩ := hf a (p w).2
  exact ⟨hr, ht2.trans ht⟩

theorem silent_printNamespaces (items : List Namespace) :
    Silent (printNamespaces items : Prog σ Unit) := by
  induction items with
  | nil => exact silent_pure ()
  | cons n rest ih => exact silent_bind (silent_Println _) (fun _ => ih)

theorem Sound.of_silent {p : Prog σ α} (hp : Silent p) : Sound p Pattern.done := by
  intro w
  obtain ⟨hr, ht⟩ := hp w
  exact ⟨[], by simpa using ht, Or.inl ⟨hr, by simp, by simp [Pattern.Matches]⟩⟩

theorem Sound.silent {q : Prog σ α} {k : α → Prog σ β} {pat : Pattern}
    (hq : Silent q) (hk : ∀ a, Sound (k a) pat) : Sound (q >>= k) pat := by
  intro w
  obtain ⟨⟨a, ha⟩, ht⟩ := hq w
  have h : q w = (Res.ok a, (q w).2) := by rw [← ha]
  rw [bind_of_ok h]
  obtain ⟨new, hnew, hcase⟩ := hk a (q w).2
  exact ⟨new, by rw [hnew, ht], hcase⟩

/-- The cases of a step that logs one event `ev` and then either panics or goes on with `k`. -/
theorem Sound.step {p : Prog σ β} {pat : Pattern} {s : Step}
    (h : ∀ w : World σ, ∃ ev : Event, ev.step = s ∧
      ((StepFailed ev ∧ ∃ v w1, p w = (Res.panic v, w1) ∧ w1.trace = w.trace ++ [ev]) ∨
       (¬ StepFailed ev ∧ ∃ (q : Prog σ β) (w1 : World σ), Sound q pat ∧ p w = q w1 ∧
          w1.trace = w.trace ++ [ev]))) :
    Sound p (Pattern.call s pat) := by
  intro w
  obtain ⟨ev, hs, hcase⟩ := h w
  rcases hcase with ⟨hf, v, w1, hp, ht⟩ | ⟨hf, q, w1, hq, hp, ht⟩
  · refine ⟨[ev], by rw [hp]; exact ht, Or.inr ⟨⟨v, by rw [hp]⟩, ?_, [], ev, rfl, by simp, hf⟩⟩
    simp [Pattern.Stops, hs]
  · obtain ⟨new, hnew, hq2⟩ := hq w1
    refine ⟨ev :: new, by rw [hp, hnew, ht]; simp, ?_⟩
    rcases hq2 with ⟨hr, hclean, hm⟩ | ⟨hr, hstop, pre, e, hpre, hclean, hfail⟩
    · left
      refine ⟨by rw [hp]; exact hr, ?_, ?_⟩
      · intro e he
        rcases List.mem_cons.mp he with rfl | he
        · exact hf
        · exact hclean e he
      · simp [Pattern.Matches, hs, hm]
    · right
      refine ⟨by rw [hp]; exact hr, ?_, ev :: pre, e, by simp [hpre], ?_, hfail⟩
      · simp [Pattern.Stops, hs, hstop]
      · intro x hx
        rcases List.mem_cons.mp hx with rfl | hx
        · exact hf
        · exact hclean x hx

theorem Sound.call {c : Call} {op : σ → Except GoError α × σ} {pay : α → Payload}
    {k : α → Prog σ β} {pat : Pattern} {s : Step} (hs : c.step = s)
    (hpay : ∀ a, ¬ StepFailed { call := c, retriesLeft := 0, result := Except.ok (pay a) })
    (hk : ∀ a, Sound (k a) pat) :
    Sound (invoke c 0 op pay >>= fun r => check r >>= k) (Pattern.call s pat) := by
  apply Sound.step
  intro w
  refine ⟨{ call := c, retriesLeft := 0, result := (op w.cluster).1.map pay }, hs, ?_⟩
  rcases hop : op w.cluster with ⟨r, s1⟩
  cases r with
  | error err =>
    left
    refine ⟨by simp [StepFailed, Except.map], PanicValue.error err,
      { w with cluster := s1
               trace := w.trace ++ [{ call := c, retriesLeft := 0, result := Except.error err }] },
      ?_, rfl⟩
    simp [bind_apply, Prog.bind, invoke, hop, check, panic, Except.map]
  | ok a =>
    right
    refine ⟨by simpa [Except.map] using hpay a, k a,
      { w with cluster := s1
               trace := w.trace ++ [{ call := c, retriesLeft := 0, result := Except.ok (pay a) }] },
      hk a, ?_, rfl⟩
    simp [bind_apply, Prog.bind, invoke, hop, check, pure_apply, Except.map]

end Blocks

section Blocks2
variable {σ α β : Type}

theorem printDeployments_ok (items : List Deployment)
    (h : ∀ d ∈ items, d.Spec.Replicas ≠ none) (w : World σ) :
    ∃ w1, printDeployments items w = (Res.ok (), w1) ∧ w1.trace = w.trace ∧
      w1.cluster = w.cluster ∧ w1.reads = w.reads := by
  induction items generalizing w with
  | nil => exact ⟨w, rfl, rfl, rfl, rfl⟩
  | cons d rest ih =>
    have hd : d.Spec.Replicas ≠ none := h d (List.mem_cons_self _ _)
    obtain ⟨n, hn⟩ := Option.ne_none_iff_exists'.mp hd
    obtain ⟨w1, h1, h2, h3, h4⟩ :=
      ih (fun x hx => h x (List.mem_cons_of_mem _ hx))
        { w with stdout := w.stdout ++
            [Output.Printf " * %s (%d replicas)\n" [Arg.str d.ObjectMeta.Name, Arg.int n]] }
    refine ⟨w1, ?_, h2, h3, h4⟩
    rw [← h1]
    simp [printDeployments, hn, bind_apply, Prog.bind, Printf]

theorem printDeployments_panic (items : List Deployment)
    (h : ∃ d ∈ items, d.Spec.Replicas = none) (w : World σ) :
    ∃ w1, printDeployments items w = (Res.panic PanicValue.nilPointerDereference, w1) ∧
      w1.trace = w.trace := by
  induction items generalizing w with
  | nil => simp at h
  | cons d rest ih =>
    cases hd : d.Spec.Replicas with
    | none => exact ⟨w, by simp [printDeployments, hd, panic], rfl⟩
    | some n =>
      have h2 : ∃ x ∈ rest, x.Spec.Replicas = none := by
        obtain ⟨x, hx, hx2⟩ := h
        rcases List.mem_cons.mp hx with rfl | hx
        · rw [hd] at hx2; cases hx2
        · exact ⟨x, hx, hx2⟩
      obtain ⟨w1, h1, ht⟩ := ih h2
        { w with stdout := w.stdout ++
            [Output.Printf " * %s (%d replicas)\n" [Arg.str d.ObjectMeta.Name, Arg.int n]] }
      refine ⟨w1, ?_, ht⟩
      rw [← h1]
      simp [printDeployments, hd, bind_apply, Prog.bind, Printf]

theorem Sound.list {ns : String} {opts : ListOptions}
    {op : σ → Except GoError (List Deployment) × σ} {k : Unit → Prog σ β} {pat : Pattern}
    (hk : ∀ u, Sound (k u) pat) :
    Sound (invoke (Call.DeploymentsList ns opts) 0 op Payload.deployments >>= fun r =>
        check r >>= fun list => printDeployments list >>= k)
      (Pattern.call (Step.DeploymentsList ns opts) pat) := by
  apply Sound.step
  intro w
  refine ⟨{ call := Call.DeploymentsList ns opts, retriesLeft := 0,
            result := (op w.cluster).1.map Payload.deployments }, rfl, ?_⟩
  rcases hop : op w.cluster with ⟨r, s1⟩
  cases r with
  | error err =>
    left
    refine ⟨by simp [StepFailed, Except.map], PanicValue.error err,
      { w with cluster := s1
               trace := w.trace ++ [{ call := Call.DeploymentsList ns opts, retriesLeft := 0,
                                      result := Except.error err }] },
      ?_, rfl⟩
    simp [bind_apply, Prog.bind, invoke, hop, check, panic, Except.map]
  | ok items =>
    by_cases hnil : ∃ d ∈ items, d.Spec.Replicas = none
    · left
      obtain ⟨w1, h1, ht⟩ := printDeployments_panic items hnil
        { w with cluster := s1
                 trace := w.trace ++ [{ call := Call.DeploymentsList ns opts, retriesLeft := 0,
                                        result := Except.ok (Payload.deployments items) }] }
      refine ⟨by simpa [StepFailed, Except.map] using hnil,
        PanicValue.nilPointerDereference, w1, ?_, ht⟩
      simp [bind_apply, Prog.bind, invoke, hop, check, pure_apply, Except.map, h1]
    · right
      have hall : ∀ d ∈ items, d.Spec.Replicas ≠ none := fun d hd hn => hnil ⟨d, hd, hn⟩
      obtain ⟨w1, h1, ht, _, _⟩ := printDeployments_ok items hall
        { w with cluster := s1
                 trace := w.trace ++ [{ call := Call.DeploymentsList ns opts, retriesLeft := 0,
                                        result := Except.ok (Payload.deployments items) }] }
      refine ⟨by simpa [StepFailed, Except.map] using hnil, k (), w1, hk (), ?_, ht⟩
      simp [bind_apply, Prog.bind, invoke, hop, check, pure_apply, Except.map, h1]

theorem prompt_of_error {env : Env σ} {w : World σ} {err : GoError}
    (h : env.Stdin w.reads = ScanResult.error err) :
    prompt env w = (Res.panic (PanicValue.error err), w.paused env) := by
  simp [prompt, bind_apply, Prog.bind, Printf, scanOnce, h, Scanner.Scan, Scanner.Err, panic,
    World.paused]

theorem prompt_of_not_error {env : Env σ} {w : World σ}
    (h : ∀ err, env.Stdin w.reads ≠ ScanResult.error err) :
    prompt env w =
      (Res.ok (), { w.paused env with stdout := (w.paused env).stdout ++ [Output.Println []] }) := by
  cases hr : env.Stdin w.reads with
  | token text =>
    simp [prompt, bind_apply, Prog.bind, Printf, scanOnce, hr, Scanner.Scan, Scanner.Err, Println,
      World.paused]
  | eof =>
    simp [prompt, bind_apply, Prog.bind, Printf, scanOnce, hr, Scanner.Scan, Scanner.Err, Println,
      World.paused]
  | error err => exact absurd hr (h err)

theorem Sound.prompt {env : Env σ} {k : Unit → Prog σ β} {pat : Pattern}
    (hk : ∀ u, Sound (k u) pat) :
    Sound (prompt env >>= k) (Pattern.call Step.Scan pat) := by
  apply Sound.step
  intro w
  refine ⟨{ call := Call.Scan, retriesLeft := 0, result := (env.Stdin w.reads).logged }, rfl, ?_⟩
  by_cases h : ∃ err, env.Stdin w.reads = ScanResult.error err
  · obtain ⟨err, herr⟩ := h
    left
    refine ⟨by simp [StepFailed, herr, ScanResult.logged, Call.isUpdate],
      PanicValue.error err, w.paused env, bind_of_panic (prompt_of_error herr), rfl⟩
  · right
    have h2 : ∀ err, env.Stdin w.reads ≠ ScanResult.error err := fun err he => h ⟨err, he⟩
    refine ⟨?_, k (), _, hk (), bind_of_ok (prompt_of_not_error h2), rfl⟩
    cases hr : env.Stdin w.reads with
    | token text => simp [StepFailed, ScanResult.logged]
    | eof => simp [StepFailed, ScanResult.logged]
    | error err => exact absurd hr (h2 err)

end Blocks2

section Update
variable {σ α β : Type}

theorem modified_eq_none (replicas : Int) (fetched : Deployment) :
    modified replicas fetched = none ↔ fetched.Spec.Template.Spec.Containers = [] := by
  unfold modified setImage0
  cases h : fetched.Spec.Template.Spec.Containers <;> simp [h]

theorem updateClosure_get_error {c : DeploymentInterface σ} {replicas : Int} {j : Nat}
    {w : World σ} {err : GoError} {s1 : σ}
    (hg : c.cluster.getDeployment c.ns "demo-deployment" w.cluster = (Except.error err, s1)) :
    updateClosure c replicas j w =
      (Res.panic (PanicValue.Errorf "Failed to get latest version of Deployment: %v" err),
        { w with cluster := s1, trace := w.trace ++ [getEvent c.ns j (Except.error err)] }) := by
  simp [updateClosure, DeploymentInterface.Get, bind_apply, Prog.bind, invoke, hg, panic, getEvent]

theorem updateClosure_no_container {c : DeploymentInterface σ} {replicas : Int} {j : Nat}
    {w : World σ} {fetched : Deployment} {s1 : σ}
    (hg : c.cluster.getDeployment c.ns "demo-deployment" w.cluster = (Except.ok fetched, s1))
    (hm : modified replicas fetched = none) :
    updateClosure c replicas j w =
      (Res.panic PanicValue.indexOutOfRange,
        { w with cluster := s1, trace := w.trace ++ [getEvent c.ns j (Except.ok fetched)] }) := by
  unfold modified at hm
  simp [updateClosure, DeploymentInterface.Get, bind_apply, Prog.bind, invoke, hg, panic, getEvent,
    hm]

theorem updateClosure_update {c : DeploymentInterface σ} {replicas : Int} {j : Nat}
    {w : World σ} {fetched obj : Deployment} {s1 s2 : σ} {r : Except GoError Deployment}
    (hg : c.cluster.getDeployment c.ns "demo-deployment" w.cluster = (Except.ok fetched, s1))
    (hm : modified replicas fetched = some obj)
    (hu : c.cluster.updateDeployment c.ns obj s1 = (r, s2)) :
    updateClosure c replicas j w =
      (Res.ok (errorOf r),
        { w with cluster := s2
                 trace := w.trace ++
                   [getEvent c.ns j (Except.ok fetched), updateEvent c.ns obj j r] }) := by
  unfold modified at hm
  cases r <;>
  simp [updateClosure, DeploymentInterface.Get, DeploymentInterface.Update, bind_apply, Prog.bind,
    invoke, hg, hu, getEvent, updateEvent, hm, errorOf, pure_apply, Except.map]

theorem retryLoop_succ_apply (fn : Nat → Prog σ (Option GoError)) (j : Nat)
    (lastErr : Option GoError) (g : Option GoError → Prog σ β) (w : World σ) :
    (retryLoop fn (j + 1) lastErr >>= g) w =
      match fn j w with
      | (Res.panic v, w1) => (Res.panic v, w1)
      | (Res.ok none, w1) => g none w1
      | (Res.ok (some e), w1) =>
        if IsConflict e = true then (retryLoop fn j (some e) >>= g) w1 else g (some e) w1 := by
  simp only [retryLoop, bind_apply, Prog.bind]
  rcases fn j w with ⟨r, w1⟩
  cases r with
  | panic v => rfl
  | ok err =>
    cases err with
    | none => rfl
    | some e => by_cases hc : IsConflict e = true <;> simp [hc, pure_apply]

theorem stepFailed_getEvent_error (ns : String) (j : Nat) (err : GoError) :
    StepFailed (getEvent ns j (Except.error err)) := by
  simp [StepFailed, getEvent, Except.map, Call.isUpdate]

theorem stepFailed_getEvent_ok (ns : String) (j : Nat) (fetched : Deployment) :
    StepFailed (getEvent ns j (Except.ok fetched)) ↔
      fetched.Spec.Template.Spec.Containers = [] := by
  simp [StepFailed, getEvent, Except.map, Call.isGet]

theorem stepFailed_updateEvent_ok (ns : String) (obj : Deployment) (j : Nat) (d : Deployment) :
    ¬ StepFailed (updateEvent ns obj j (Except.ok d)) := by
  simp [StepFailed, updateEvent, Except.map, Call.isGet]

theorem stepFailed_updateEvent_error (ns : String) (obj : Deployment) (j : Nat) (e : GoError) :
    StepFailed (updateEvent ns obj j (Except.error e)) ↔ ¬ (IsConflict e = true ∧ 0 < j) := by
  simp [StepFailed, updateEvent, Except.map, Call.isUpdate]

/-- Events `seg` that all succeeded, followed by a run of `q` that fits `patq`, fit `target`
when `target` is `seg` followed by `patq`. -/
theorem Shaped.after {q : Prog σ β} {patq target : Pattern} (hq : Sound q patq)
    (w w2 : World σ) (seg : List Event) (hw2 : w2.trace = w.trace ++ seg)
    (hclean : ∀ e ∈ seg, ¬ StepFailed e)
    (hM : ∀ t, patq.Matches t → target.Matches (seg.map Event.step ++ t))
    (hS : ∀ t, patq.Stops t → target.Stops (seg.map Event.step ++ t)) :
    ∃ new, (q w2).2.trace = w.trace ++ new ∧ Shaped target (q w2).1 new := by
  obtain ⟨new, hnew, hcase⟩ := hq w2
  refine ⟨seg ++ new, by rw [hnew, hw2, List.append_assoc], ?_⟩
  rcases hcase with ⟨hr, hc, hmatch⟩ | ⟨hr, hstop, pre, e, hpre, hc, hfail⟩
  · refine Or.inl ⟨hr, ?_, by rw [List.map_append]; exact hM _ hmatch⟩
    intro e he
    rcases List.mem_append.mp he with he | he
    · exact hclean e he
    · exact hc e he
  · refine Or.inr ⟨hr, by rw [List.map_append]; exact hS _ hstop, seg ++ pre, e,
      by rw [hpre, List.append_assoc], ?_, hfail⟩
    intro x hx
    rcases List.mem_append.mp hx with hx | hx
    · exact hclean x hx
    · exact hc x hx

/-- A panic right after the events `pre ++ [e]`, of which only the last failed. -/
theorem Shaped.stop {target : Pattern} (v : PanicValue) (pre : List Event) (e : Event)
    (hclean : ∀ x ∈ pre, ¬ StepFailed x) (hfail : StepFailed e)
    (hS : target.Stops ((pre ++ [e]).map Event.step)) :
    Shaped target (Res.panic v : Res β) (pre ++ [e]) :=
  Or.inr ⟨⟨v, rfl⟩, hS, pre, e, rfl, hclean, hfail⟩

theorem attemptSteps_one (ns : String) (j : Nat) (fetched obj : Deployment)
    (ru : Except GoError Deployment) :
    ([getEvent ns j (Except.ok fetched), updateEvent ns obj j ru]).map Event.step
      = attemptSteps ns 1 := by
  simp [attemptSteps, getEvent, updateEvent, Event.step, Call.step]

theorem attemptSteps_succ (ns : String) (n : Nat) :
    attemptSteps ns (n + 1) = attemptSteps ns 1 ++ attemptSteps ns n := by
  simp [attemptSteps]

theorem Sound.attempt {c : DeploymentInterface σ} {replicas : Int} {k : Unit → Prog σ β}
    {pat : Pattern} (hk : ∀ u, Sound (k u) pat) (j : Nat) (lastErr : Option GoError)
    (hrec : ∀ e, 0 < j →
      Sound (retryLoop (updateClosure c replicas) j (some e) >>= fun retryErr =>
        checkRetry retryErr >>= k) (Pattern.attempts c.ns j pat)) :
    Sound (retryLoop (updateClosure c replicas) (j + 1) lastErr >>= fun retryErr =>
        checkRetry retryErr >>= k)
      (Pattern.attempts c.ns (j + 1) pat) := by
  intro w
  rw [retryLoop_succ_apply]
  have hone : ∀ t, t <+: attemptSteps c.ns 1 →
      (Pattern.attempts c.ns (j + 1) pat).Stops t :=
    fun t ht => Or.inl ⟨1, le_refl 1, by omega, ht⟩
  rcases hg : c.cluster.getDeployment c.ns "demo-deployment" w.cluster with ⟨rg, s1⟩
  cases rg with
  | error err =>
    rw [updateClosure_get_error hg]
    refine ⟨[] ++ [getEvent c.ns j (Except.error err)], rfl,
      Shaped.stop _ [] _ (by simp) (stepFailed_getEvent_error _ _ _) (hone _ ?_)⟩
    simp [attemptSteps, getEvent, Event.step, Call.step]
  | ok fetched =>
    cases hm : modified replicas fetched with
    | none =>
      rw [updateClosure_no_container hg hm]
      refine ⟨[] ++ [getEvent c.ns j (Except.ok fetched)], rfl,
        Shaped.stop _ [] _ (by simp)
          ((stepFailed_getEvent_ok _ _ _).mpr ((modified_eq_none _ _).mp hm)) (hone _ ?_)⟩
      simp [attemptSteps, getEvent, Event.step, Call.step]
    | some obj =>
      have hget : ¬ StepFailed (getEvent c.ns j (Except.ok fetched)) := by
        rw [stepFailed_getEvent_ok, ← modified_eq_none replicas fetched, hm]
        simp
      rcases hu : c.cluster.updateDeployment c.ns obj s1 with ⟨ru, s2⟩
      rw [updateClosure_update hg hm hu]
      have hclean : ¬ StepFailed (updateEvent c.ns obj j ru) →
          ∀ e ∈ [getEvent c.ns j (Except.ok fetched), updateEvent c.ns obj j ru],
            ¬ StepFailed e := by
        intro hupd e he
        simp only [List.mem_cons, List.mem_singleton, List.not_mem_nil, or_false] at he
        rcases he with rfl | rfl
        · exact hget
        · exact hupd
      have hstop : ∀ e, ru = Except.error e → ¬ (IsConflict e = true ∧ 0 < j) →
          Shaped (Pattern.attempts c.ns (j + 1) pat) (Res.panic
            (PanicValue.Errorf "Update failed: %v" e) : Res β)
            ([getEvent c.ns j (Except.ok fetched)] ++ [updateEvent c.ns obj j ru]) := by
        intro e he hfatal
        subst he
        refine Shaped.stop _ _ _ ?_ ((stepFailed_updateEvent_error _ _ _ _).mpr hfatal)
          (hone _ ?_)
        · intro x hx
          simp only [List.mem_singleton] at hx
          subst hx
          exact hget
        · rw [List.singleton_append, attemptSteps_one]
      cases ru with
      | ok d =>
        simp only [errorOf]
        refine Shaped.after (Sound.silent (silent_pure ()) hk) w _ _ rfl
          (hclean (stepFailed_updateEvent_ok _ _ _ _)) ?_ ?_
        · intro t ht
          rw [attemptSteps_one]
          exact ⟨1, t, le_refl 1, by omega, rfl, ht⟩
        · intro t ht
          rw [attemptSteps_one]
          exact Or.inr ⟨1, t, le_refl 1, by omega, rfl, ht⟩
      | error e =>
        simp only [errorOf]
        by_cases hc : IsConflict e = true
        · simp only [hc, if_true]
          by_cases hj : 0 < j
          · refine Shaped.after (hrec e hj) w _ _ rfl
              (hclean ((stepFailed_updateEvent_error _ _ _ _).not.mpr (by simp [hc, hj]))) ?_ ?_
            · rintro t ⟨n, t1, hn1, hn2, rfl, ht1⟩
              rw [attemptSteps_one]
              exact ⟨n + 1, t1, by omega, by omega,
                by rw [attemptSteps_succ c.ns n, List.append_assoc], ht1⟩
            · rintro t (⟨n, hn1, hn2, hpre⟩ | ⟨n, t1, hn1, hn2, rfl, ht1⟩)
              · rw [attemptSteps_one]
                refine Or.inl ⟨n + 1, by omega, by omega, ?_⟩
                rw [attemptSteps_succ c.ns n]
                exact (List.prefix_append_right_inj _).mpr hpre
              · rw [attemptSteps_one]
                exact Or.inr ⟨n + 1, t1, by omega, by omega,
                  by rw [attemptSteps_succ c.ns n, List.append_assoc], ht1⟩
          · have hj0 : j = 0 := by omega
            subst hj0
            exact ⟨_, rfl, hstop e rfl (by simp)⟩
        · simp only [hc]
          exact ⟨_, rfl, hstop e rfl (by simp [hc])⟩

theorem Sound.retry {c : DeploymentInterface σ} {replicas : Int} {k : Unit → Prog σ β}
    {pat : Pattern} (hk : ∀ u, Sound (k u) pat) (j : Nat) (lastErr : Option GoError) :
    Sound (retryLoop (updateClosure c replicas) (j + 1) lastErr >>= fun retryErr =>
        checkRetry retryErr >>= k)
      (Pattern.attempts c.ns (j + 1) pat) := by
  induction j generalizing lastErr with
  | zero => exact Sound.attempt hk 0 lastErr (fun _ h => absurd h (lt_irrefl 0))
  | succ j ih => exact Sound.attempt hk (j + 1) lastErr (fun e _ => ih (some e))

theorem Sound.update {c : DeploymentInterface σ} {replicas : Int} {k : Unit → Prog σ β}
    {pat : Pattern} {backoff : Backoff} (hpos : 0 < backoff.Steps) (hk : ∀ u, Sound (k u) pat) :
    Sound (RetryOnConflict backoff (updateClosure c replicas) >>= fun retryErr =>
        checkRetry retryErr >>= k)
      (Pattern.attempts c.ns backoff.Steps pat) := by
  obtain ⟨j, hj⟩ : ∃ j, backoff.Steps = j + 1 := ⟨backoff.Steps - 1, by omega⟩
  unfold RetryOnConflict
  rw [hj]
  exact Sound.retry hk j none

end Update
section MainSound
variable {σ : Type}

theorem main_sound (env : Env σ) (hpos : 0 < env.DefaultRetry.Steps) :
    Sound (main env) (mainPattern (kubeconfig env) env.DefaultRetry.Steps) := by
  unfold main mainPattern BuildConfigFromFlags NewForConfig
  refine Sound.call rfl (by simp [StepFailed]) (fun config => ?_)
  refine Sound.call rfl (by simp [StepFailed]) (fun clientset => ?_)
  unfold firstResource secondResource firstPattern secondPattern
  simp only [prog_bind_assoc, DeploymentInterface.Create, DeploymentInterface.List,
    DeploymentInterface.Delete, NamespaceInterface.Create, NamespaceInterface.List,
    NamespaceInterface.Delete, ServiceInterface.Create, ServiceInterface.Delete]
  have happ : "app=" ++ "demo" = "app=demo" := by decide
  simp only [happ, NamespaceDefault]
  repeat (first
    | refine Sound.silent (silent_Println _) (fun _ => ?_)
    | refine Sound.silent (silent_Printf _ _) (fun _ => ?_)
    | refine Sound.silent (silent_printNamespaces _) (fun _ => ?_)
    | refine Sound.prompt (fun _ => ?_)
    | refine Sound.list (fun _ => ?_)
    | refine Sound.update hpos (fun _ => ?_)
    | refine Sound.call rfl (by simp [StepFailed, Call.isGet]) (fun _ => ?_)
    | exact Sound.of_silent (silent_Println _))

end MainSound
section Paths
variable {σ : Type}

theorem Pattern.exists_matches (pat : Pattern) (hpos : pat.Positive) : ∃ t, pat.Matches t := by
  induction pat with
  | done => exact ⟨[], rfl⟩
  | call s rest ih =>
    obtain ⟨t, ht⟩ := ih hpos
    exact ⟨s :: t, t, rfl, ht⟩
  | attempts ns max rest ih =>
    obtain ⟨t, ht⟩ := ih hpos.2
    exact ⟨attemptSteps ns 1 ++ t, 1, t, le_refl 1, hpos.1, rfl, ht⟩

theorem Pattern.stops_prefix (pat : Pattern) (hpos : pat.Positive) (t : List Step)
    (h : pat.Stops t) : ∃ full, pat.Matches full ∧ t <+: full := by
  induction pat generalizing t with
  | done => exact absurd h (by simp [Pattern.Stops])
  | call s rest ih =>
    rcases h with rfl | ⟨t1, rfl, h1⟩
    · obtain ⟨u, hu⟩ := rest.exists_matches hpos
      exact ⟨s :: u, ⟨u, rfl, hu⟩, by simp⟩
    · obtain ⟨full, hfull, hpre⟩ := ih hpos t1 h1
      exact ⟨s :: full, ⟨full, rfl, hfull⟩, by simpa using hpre⟩
  | attempts ns max rest ih =>
    rcases h with ⟨n, hn1, hn2, hpre⟩ | ⟨n, t1, hn1, hn2, rfl, h1⟩
    · obtain ⟨u, hu⟩ := rest.exists_matches hpos.2
      exact ⟨attemptSteps ns n ++ u, ⟨n, u, hn1, hn2, rfl, hu⟩, hpre.trans (List.prefix_append _ _)⟩
    · obtain ⟨full, hfull, hpre⟩ := ih hpos.2 t1 h1
      exact ⟨attemptSteps ns n ++ full, ⟨n, full, hn1, hn2, rfl, hfull⟩,
        (List.prefix_append_right_inj _).mpr hpre⟩

theorem mainPattern_positive (kubeconfigPath : String) (steps : Nat) (hpos : 0 < steps) :
    (mainPattern kubeconfigPath steps).Positive := by
  simp [mainPattern, firstPattern, secondPattern, Pattern.Positive, hpos]

theorem mainPattern_matches (kubeconfigPath : String) (steps : Nat) (t : List Step)
    (h : (mainPattern kubeconfigPath steps).Matches t) :
    ∃ n1 n2, 1 ≤ n1 ∧ n1 ≤ steps ∧ 1 ≤ n2 ∧ n2 ≤ steps ∧ t = successPath kubeconfigPath n1 n2 := by
  simp only [mainPattern, firstPattern, secondPattern, Pattern.Matches] at h
  obtain ⟨_, rfl, _, rfl, _, rfl, _, rfl, _, rfl, _, rfl, n1, _, h1, h2, rfl,
    _, rfl, _, rfl, _, rfl, _, rfl, _, rfl, _, rfl, _, rfl, _, rfl, _, rfl, _, rfl, _, rfl,
    n2, _, h3, h4, rfl, _, rfl, _, rfl, _, rfl, _, rfl, _, rfl, _, rfl, _, rfl, _, rfl, _, rfl, rfl⟩ := h
  exact ⟨n1, n2, h1, h2, h3, h4, by simp [successPath]⟩

theorem attemptSteps_filter (ns : String) (n : Nat) :
    (attemptSteps ns n).filter Step.isApi = attemptSteps ns n := by
  induction n with
  | zero => rfl
  | succ n ih => simp [attemptSteps, Step.isApi, ih]

theorem successPath_filter (kubeconfigPath : String) (n1 n2 : Nat) :
    (successPath kubeconfigPath n1 n2).filter Step.isApi = fixedSequence n1 n2 := by
  simp [successPath, fixedSequence, List.filter_append, attemptSteps_filter, Step.isApi]

/-- The shape of every run of `main` from the start of the process. -/
theorem main_shaped (env : Env σ) (s : σ) (hpos : 0 < env.DefaultRetry.Steps) :
    Shaped (mainPattern (kubeconfig env) env.DefaultRetry.Steps) (main env (World.start s)).1
      (main env (World.start s)).2.trace := by
  obtain ⟨new, hnew, hshape⟩ := main_sound env hpos (World.start s)
  have : (main env (World.start s)).2.trace = new := by simpa [World.start] using hnew
  rw [this]
  exact hshape

/-- A failed step ends the run: it is the last event and the result is a panic. -/
theorem main_failed_last (env : Env σ) (s : σ) (hpos : 0 < env.DefaultRetry.Steps)
    (i : Nat) (e : Event) (hi : (main env (World.start s)).2.trace[i]? = some e)
    (hf : StepFailed e) :
    (∃ v, (main env (World.start s)).1 = Res.panic v) ∧
      i + 1 = (main env (World.start s)).2.trace.length ∧
      (∀ j x, j < i → (main env (World.start s)).2.trace[j]? = some x → ¬ StepFailed x) ∧
      ∃ n1 n2, 1 ≤ n1 ∧ n1 ≤ env.DefaultRetry.Steps ∧ 1 ≤ n2 ∧ n2 ≤ env.DefaultRetry.Steps ∧
        (main env (World.start s)).2.trace.map Event.step <+:
          successPath (kubeconfig env) n1 n2 := by
  have hmem : e ∈ (main env (World.start s)).2.trace := List.getElem?_mem hi
  rcases main_shaped env s hpos with ⟨_, hclean, _⟩ | ⟨hr, hstop, pre, last, hpre, hclean, _⟩
  · exact absurd hf (hclean e hmem)
  · rw [hpre] at hi ⊢
    have hlen : i = pre.length := by
      by_contra hne
      have hlt : i < pre.length := by
        have := (List.getElem?_eq_some_iff.mp hi).1
        simp at this
        omega
      rw [List.getElem?_append_left hlt] at hi
      exact hclean e (List.getElem?_mem hi) hf
    refine ⟨hr, by simp [hlen], ?_, ?_⟩
    · intro j x hj hx
      rw [List.getElem?_append_left (by omega)] at hx
      exact hclean x (List.getElem?_mem hx)
    · rw [hpre] at hstop
      obtain ⟨full, hfull, hprefix⟩ :=
        Pattern.stops_prefix _ (mainPattern_positive _ _ hpos) _ hstop
      obtain ⟨n1, n2, h1, h2, h3, h4, rfl⟩ := mainPattern_matches _ _ _ hfull
      exact ⟨n1, n2, h1, h2, h3, h4, hprefix⟩

theorem fatalError_stepFailed (e : Event) (h : FatalError e) : StepFailed e := by
  unfold FatalError at h
  unfold StepFailed
  cases hr : e.result with
  | error err => simpa [hr] using h
  | ok p => simp [hr] at h

end Paths

section Fresh
variable {σ α β : Type}

theorem Follows.weaken {e : Event} (h : Follows none e) (prev : Option Event) :
    Follows prev e := by
  intro ns obj hc
  obtain ⟨_, fetched, hprev, _⟩ := h ns obj hc
  cases hprev

theorem FreshFrom.relax {l : List Event} (h : FreshFrom none l) (prev : Option Event) :
    FreshFrom prev l := by
  cases l with
  | nil => trivial
  | cons e rest => exact ⟨h.1.weaken prev, h.2⟩

theorem FreshFrom.append {a b : List Event} {prev : Option Event} (ha : FreshFrom prev a)
    (hb : FreshFrom none b) : FreshFrom prev (a ++ b) := by
  induction a generalizing prev with
  | nil => exact hb.relax prev
  | cons e rest ih => exact ⟨ha.1, ih ha.2⟩

theorem FreshFrom.getElem {l : List Event} {prev : Option Event} (h : FreshFrom prev l)
    (i : Nat) (e : Event) (hi : l[i]? = some e) :
    (i = 0 ∧ Follows prev e) ∨ ∃ j, i = j + 1 ∧ Follows l[j]? e := by
  induction l generalizing prev i with
  | nil => simp at hi
  | cons x rest ih =>
    cases i with
    | zero =>
      simp at hi
      subst hi
      exact Or.inl ⟨rfl, h.1⟩
    | succ i =>
      right
      rw [List.getElem?_cons_succ] at hi
      rcases ih h.2 i hi with ⟨rfl, hf⟩ | ⟨j, rfl, hf⟩
      · exact ⟨0, rfl, by simpa using hf⟩
      · exact ⟨j + 1, rfl, by simpa using hf⟩

theorem appends_bind {p : Prog σ α} {f : α → Prog σ β} (hp : Appends (FreshFrom none) p)
    (hf : ∀ a, Appends (FreshFrom none) (f a)) : Appends (FreshFrom none) (p >>= f) := by
  intro w
  obtain ⟨n1, h1, hP1⟩ := hp w
  rcases hpw : p w with ⟨r, w1⟩
  rw [hpw] at h1
  cases r with
  | panic v =>
    rw [bind_of_panic hpw]
    exact ⟨n1, h1, hP1⟩
  | ok a =>
    rw [bind_of_ok hpw]
    obtain ⟨n2, h2, hP2⟩ := hf a w1
    exact ⟨n1 ++ n2, by rw [h2, h1, List.append_assoc], hP1.append hP2⟩

theorem appends_quiet {p : Prog σ α} (h : ∀ w, (p w).2.trace = w.trace) :
    Appends (FreshFrom none) p :=
  fun w => ⟨[], by simpa using h w, trivial⟩

theorem appends_invoke {c : Call} {j : Nat} {op : σ → Except GoError α × σ} {pay : α → Payload}
    (hc : c.isUpdate = false) : Appends (FreshFrom none) (invoke c j op pay) := by
  intro w
  refine ⟨[{ call := c, retriesLeft := j, result := (op w.cluster).1.map pay }], rfl, ?_, trivial⟩
  intro ns obj h
  simp only at h
  rw [h] at hc
  simp [Call.isUpdate] at hc

theorem appends_check (r : Except GoError α) : Appends (FreshFrom none) (check r : Prog σ α) :=
  appends_quiet (fun w => by cases r <;> rfl)

theorem appends_checkRetry (r : Option GoError) :
    Appends (FreshFrom none) (checkRetry r : Prog σ Unit) :=
  appends_quiet (fun w => by cases r <;> rfl)

theorem appends_printDeployments (items : List Deployment) :
    Appends (FreshFrom none) (printDeployments items : Prog σ Unit) := by
  induction items with
  | nil => exact appends_quiet (fun _ => rfl)
  | cons d rest ih =>
    unfold printDeployments
    cases d.Spec.Replicas with
    | none => exact appends_quiet (fun _ => rfl)
    | some n => exact appends_bind (appends_quiet (fun _ => rfl)) (fun _ => ih)

theorem appends_prompt (env : Env σ) : Appends (FreshFrom none) (prompt env) := by
  intro w
  refine ⟨[{ call := Call.Scan, retriesLeft := 0, result := (env.Stdin w.reads).logged }], ?_, ?_,
    trivial⟩
  · by_cases h : ∃ err, env.Stdin w.reads = ScanResult.error err
    · obtain ⟨err, herr⟩ := h
      rw [prompt_of_error herr]
      rfl
    · rw [prompt_of_not_error (fun err he => h ⟨err, he⟩)]
      rfl
  · intro ns obj h
    simp at h

theorem appends_updateClosure (c : DeploymentInterface σ) (replicas : Int) (j : Nat)
    (hns : c.ns = "default" ∨ c.ns = "test-namespace") (hr : replicas = replicasFor c.ns) :
    Appends (FreshFrom none) (updateClosure c replicas j) := by
  intro w
  have hget : ∀ r, Follows none (getEvent c.ns j r) := by
    intro r ns obj h
    simp [getEvent] at h
  rcases hg : c.cluster.getDeployment c.ns "demo-deployment" w.cluster with ⟨rg, s1⟩
  cases rg with
  | error err =>
    rw [updateClosure_get_error hg]
    exact ⟨_, rfl, hget _, trivial⟩
  | ok fetched =>
    cases hm : modified replicas fetched with
    | none =>
      rw [updateClosure_no_container hg hm]
      exact ⟨_, rfl, hget _, trivial⟩
    | some obj =>
      rcases hu : c.cluster.updateDeployment c.ns obj s1 with ⟨ru, s2⟩
      rw [updateClosure_update hg hm hu]
      refine ⟨_, rfl, hget _, ?_, trivial⟩
      intro ns obj2 h
      simp only [updateEvent, Call.DeploymentsUpdate.injEq] at h
      obtain ⟨rfl, rfl⟩ := h
      exact ⟨hns, fetched, rfl, by rw [← hr]; exact hm⟩

theorem appends_retryLoop (c : DeploymentInterface σ) (replicas : Int)
    (hns : c.ns = "default" ∨ c.ns = "test-namespace") (hr : replicas = replicasFor c.ns)
    (fuel : Nat) (lastErr : Option GoError) :
    Appends (FreshFrom none) (retryLoop (updateClosure c replicas) fuel lastErr) := by
  induction fuel generalizing lastErr with
  | zero => exact appends_quiet (fun _ => rfl)
  | succ k ih =>
    unfold retryLoop
    refine appends_bind (appends_updateClosure c replicas k hns hr) (fun err => ?_)
    cases err with
    | none => exact appends_quiet (fun _ => rfl)
    | some e =>
      by_cases hc : IsConflict e = true
      · simp only [hc, if_true]
        exact ih (some e)
      · simp only [hc]
        exact appends_quiet (fun _ => rfl)

theorem appends_Println (args : List Arg) :
    Appends (FreshFrom none) (Println args : Prog σ Unit) :=
  appends_quiet (fun _ => rfl)

theorem appends_Printf (format : String) (args : List Arg) :
    Appends (FreshFrom none) (Printf format args : Prog σ Unit) :=
  appends_quiet (fun _ => rfl)

theorem appends_printNamespaces (items : List Namespace) :
    Appends (FreshFrom none) (printNamespaces items : Prog σ Unit) :=
  appends_quiet (fun w => (silent_printNamespaces items w).2)

theorem appends_update (backoff : Backoff) (c : DeploymentInterface σ) (replicas : Int)
    (hns : c.ns = "default" ∨ c.ns = "test-namespace") (hr : replicas = replicasFor c.ns) :
    Appends (FreshFrom none) (RetryOnConflict backoff (updateClosure c replicas)) :=
  appends_retryLoop c replicas hns hr _ _

theorem main_fresh (env : Env σ) : Appends (FreshFrom none) (main env) := by
  unfold main firstResource secondResource BuildConfigFromFlags NewForConfig
  simp only [DeploymentInterface.Create, DeploymentInterface.List,
    DeploymentInterface.Delete, NamespaceInterface.Create, NamespaceInterface.List,
    NamespaceInterface.Delete, ServiceInterface.Create, ServiceInterface.Delete, NamespaceDefault]
  repeat' (first
    | ((with_reducible refine appends_invoke ?_) <;> rfl)
    | with_reducible exact appends_check _
    | with_reducible exact appends_checkRetry _
    | with_reducible exact appends_prompt _
    | with_reducible exact appends_printDeployments _
    | with_reducible exact appends_Println _
    | with_reducible exact appends_Printf _ _
    | with_reducible exact appends_printNamespaces _
    | with_reducible exact appends_update _ _ _ (Or.inl rfl) (by simp [replicasFor])
    | with_reducible exact appends_update _ _ _ (Or.inr rfl) (by simp [replicasFor])
    | with_reducible refine appends_bind ?_ (fun _ => ?_))

end Fresh

/-! ## Runs against the cluster without interfering actors -/

section StoreRuns

theorem prompt_store (stdin : Nat → ScanResult) (retry : Backoff)
    (hin : ∀ n err, stdin n ≠ ScanResult.error err) (w : World Store) :
    prompt (storeEnv stdin retry) w =
      (Res.ok (),
        { w with reads := w.reads + 1
                 stdout := w.stdout ++ [Output.Printf "-> Press Return key to continue." [],
                   Output.Println []]
                 trace := w.trace ++
                   [{ call := Call.Scan, retriesLeft := 0, result := (stdin w.reads).logged }] }) := by
  rw [prompt_of_not_error (fun err => hin _ err)]
  simp [World.paused, storeEnv]

theorem storeEnv_DefaultRetry (stdin : Nat → ScanResult) (retry : Backoff) :
    (storeEnv stdin retry).DefaultRetry = retry := rfl

theorem firstResource_store_ok (stdin : Nat → ScanResult) (j : Nat)
    (hin : ∀ n err, stdin n ≠ ScanResult.error err) (w : World Store)
    (hempty : w.cluster.deployments "default" = []) :
    (firstResource (storeEnv stdin { Steps := j + 1 }) storeCluster w).1 = Res.ok () := by
  simp [firstResource, bind_apply, Prog.bind, Println, Printf, DeploymentInterface.Create,
    DeploymentInterface.List, DeploymentInterface.Get, DeploymentInterface.Update,
    DeploymentInterface.Delete, invoke, check, storeCluster, Store.createDeployment,
    Store.listDeployments, Store.getDeployment, Store.updateDeployment, Store.deleteDeployment,
    hempty, prompt_store stdin _ hin, NamespaceDefault, deployment, stamp, parseSelector,
    labelsMatch, printDeployments, pure_apply, RetryOnConflict, retryLoop, updateClosure,
    setImage0, int32Ptr, checkRetry, storeEnv_DefaultRetry]


theorem firstResource_store (stdin : Nat → ScanResult) (j : Nat)
    (hin : ∀ n err, stdin n ≠ ScanResult.error err) (w : World Store)
    (hempty : w.cluster.deployments "default" = []) :
    (firstResource (storeEnv stdin { Steps := j + 1 }) storeCluster w).1 = Res.ok () ∧
    (firstResource (storeEnv stdin { Steps := j + 1 }) storeCluster w).2.trace =
      w.trace ++
        [{ call := Call.DeploymentsCreate "default" deployment, retriesLeft := 0,
           result := Except.ok (Payload.deployment
             (stored deployment "default" (w.cluster.revision + 1))) },
         scanEvent stdin w.reads,
         { call := Call.DeploymentsList "default" {}, retriesLeft := 0,
           result := Except.ok (Payload.deployments
             [stored deployment "default" (w.cluster.revision + 1)]) },
         scanEvent stdin (w.reads + 1),
         getEvent "default" j (Except.ok (stored deployment "default" (w.cluster.revision + 1))),
         updateEvent "default" (submitted 1 (stored deployment "default" (w.cluster.revision + 1))) j
           (Except.ok (stored (submitted 1 (stored deployment "default" (w.cluster.revision + 1)))
             "default" (w.cluster.revision + 2))),
         scanEvent stdin (w.reads + 2),
         { call := Call.DeploymentsList "default" {}, retriesLeft := 0,
           result := Except.ok (Payload.deployments
             [stored (submitted 1 (stored deployment "default" (w.cluster.revision + 1)))
               "default" (w.cluster.revision + 2)]) },
         scanEvent stdin (w.reads + 3),
         { call := Call.DeploymentsDelete "default" "demo-deployment" foreground, retriesLeft := 0,
           result := Except.ok Payload.unit }] ∧
    (firstResource (storeEnv stdin { Steps := j + 1 }) storeCluster w).2.cluster.deployments "default" = [] := by
  refine ⟨?_, ?_, ?_⟩ <;>
  simp [firstResource, bind_apply, Prog.bind, Println, Printf, DeploymentInterface.Create,
    DeploymentInterface.List, DeploymentInterface.Get, DeploymentInterface.Update,
    DeploymentInterface.Delete, invoke, check, storeCluster, Store.createDeployment,
    Store.listDeployments, Store.getDeployment, Store.updateDeployment, Store.deleteDeployment,
    hempty, prompt_store stdin _ hin, NamespaceDefault, deployment, stamp, parseSelector,
    labelsMatch, printDeployments, pure_apply, RetryOnConflict, retryLoop, updateClosure,
    setImage0, int32Ptr, checkRetry, storeEnv_DefaultRetry, stored, scanEvent, getEvent,
    updateEvent, submitted, modified, foreground, Except.map]


theorem printNamespaces_apply {σ : Type} (items : List Namespace) (w : World σ) :
    printNamespaces items w =
      (Res.ok (),
        { w with stdout := (w.stdout ++ items.map (fun n => Output.Println [Arg.str n.ObjectMeta.Name])) }) := by
  induction items generalizing w with
  | nil => simp [printNamespaces, pure_apply]
  | cons n rest ih => simp [printNamespaces, bind_apply, Prog.bind, Println, ih]

theorem secondResource_store (stdin : Nat → ScanResult) (j : Nat)
    (hin : ∀ n err, stdin n ≠ ScanResult.error err) (w : World Store)
    (hns : ∀ n ∈ w.cluster.namespaces, n.ObjectMeta.Name ≠ "test-namespace")
    (hdep : w.cluster.deployments "test-namespace" = [])
    (hsvc : w.cluster.services "test-namespace" = []) :
    (secondResource (storeEnv stdin { Steps := j + 1 }) storeCluster w).1 = Res.ok () ∧
    (secondResource (storeEnv stdin { Steps := j + 1 }) storeCluster w).2.trace =
      w.trace ++
        [{ call := Call.NamespacesCreate namespace1, retriesLeft := 0,
           result := Except.ok (Payload.namespace1
             { ObjectMeta := stamp namespace1.ObjectMeta "" (w.cluster.revision + 1) }) },
         scanEvent stdin w.reads,
         { call := Call.NamespacesList {}, retriesLeft := 0,
           result := Except.ok (Payload.namespaces (w.cluster.namespaces ++
             [{ ObjectMeta := stamp namespace1.ObjectMeta "" (w.cluster.revision + 1) }])) },
         { call := Call.DeploymentsCreate "test-namespace" deployment2, retriesLeft := 0,
           result := Except.ok (Payload.deployment
             (stored deployment2 "test-namespace" (w.cluster.revision + 2))) },
         scanEvent stdin (w.reads + 1),
         { call := Call.DeploymentsList "test-namespace" {}, retriesLeft := 0,
           result := Except.ok (Payload.deployments
             [stored deployment2 "test-namespace" (w.cluster.revision + 2)]) },
         scanEvent stdin (w.reads + 2),
         getEvent "test-namespace" j
           (Except.ok (stored deployment2 "test-namespace" (w.cluster.revision + 2))),
         updateEvent "test-namespace"
           (submitted 5 (stored deployment2 "test-namespace" (w.cluster.revision + 2))) j
           (Except.ok (stored (submitted 5 (stored deployment2 "test-namespace"
             (w.cluster.revision + 2))) "test-namespace" (w.cluster.revision + 3))),
         { call := Call.ServicesCreate "test-namespace" serviceNp, retriesLeft := 0,
           result := Except.ok (Payload.service
             { serviceNp with
               ObjectMeta := stamp serviceNp.ObjectMeta "test-namespace" (w.cluster.revision + 4) }) },
         scanEvent stdin (w.reads + 3),
         { call := Call.DeploymentsList "test-namespace" { LabelSelector := "app=demo" },
           retriesLeft := 0, result := Except.ok (Payload.deployments []) },
         scanEvent stdin (w.reads + 4),
         { call := Call.DeploymentsDelete "test-namespace" "demo-deployment" foreground,
           retriesLeft := 0, result := Except.ok Payload.unit },
         scanEvent stdin (w.reads + 5),
         { call := Call.ServicesDelete "test-namespace" "service-np" foreground,
           retriesLeft := 0, result := Except.ok Payload.unit },
         scanEvent stdin (w.reads + 6),
         { call := Call.NamespacesDelete "test-namespace" foreground,
           retriesLeft := 0, result := Except.ok Payload.unit }] ∧
    (secondResource (storeEnv stdin { Steps := j + 1 }) storeCluster w).2.cluster.deployments
      "test-namespace" = [] ∧
    (secondResource (storeEnv stdin { Steps := j + 1 }) storeCluster w).2.cluster.services
      "test-namespace" = [] ∧
    (secondResource (storeEnv stdin { Steps := j + 1 }) storeCluster w).2.cluster.namespaces
      = w.cluster.namespaces := by
  have hany : ¬ ∃ x ∈ w.cluster.namespaces, x.ObjectMeta.Name = "test-namespace" := by
    rintro ⟨x, hx, hname⟩
    exact hns x hx hname
  have hsel : parseSelector "app=demo" = some [("app", "demo")] := by decide
  have hall : parseSelector "" = some [] := by decide
  have hfilter : w.cluster.namespaces.filter
      (fun e => decide (e.ObjectMeta.Name ≠ "test-namespace")) = w.cluster.namespaces :=
    List.filter_eq_self.mpr (fun a ha => by simpa using hns a ha)
  refine ⟨?_, ?_, ?_, ?_, ?_⟩
  all_goals simp [secondResource, bind_apply, Prog.bind, Println, Printf, DeploymentInterface.Create,
    DeploymentInterface.List, DeploymentInterface.Get, DeploymentInterface.Update,
    DeploymentInterface.Delete, NamespaceInterface.Create, NamespaceInterface.List,
    NamespaceInterface.Delete, ServiceInterface.Create, ServiceInterface.Delete,
    invoke, check, storeCluster, Store.createDeployment,
    Store.listDeployments, Store.getDeployment, Store.updateDeployment, Store.deleteDeployment,
    Store.createNamespace, Store.listNamespaces, Store.deleteNamespace, Store.createService,
    Store.deleteService, hsel, hall, hfilter, hany,
    hdep, hsvc, prompt_store stdin _ hin, deployment2, namespace1, serviceNp, stamp,
    labelsMatch, printDeployments, pure_apply, RetryOnConflict, retryLoop, updateClosure,
    setImage0, int32Ptr, checkRetry, storeEnv_DefaultRetry, stored, scanEvent, getEvent,
    updateEvent, submitted, modified, foreground, Except.map, printNamespaces_apply]
  exact hns


theorem main_store_existing (stdin : Nat → ScanResult) (retry : Backoff) (s : Store)
    (h : ∃ d ∈ s.deployments "default", d.ObjectMeta.Name = "demo-deployment") :
    main (storeEnv stdin retry) (World.start s) =
      (Res.panic (PanicValue.error (statusError StatusReason.StatusReasonAlreadyExists)),
        { cluster := s
          reads := 0
          stdout := [Output.Println [Arg.str "Creating first resource in default namespace..."],
                     Output.Println [Arg.str "Creating deployment..."]]
          trace :=
            [{ call := Call.BuildConfigFromFlags "" (kubeconfig (storeEnv stdin retry)),
               retriesLeft := 0, result := Except.ok (Payload.config {}) },
             { call := Call.NewForConfig {}, retriesLeft := 0, result := Except.ok Payload.unit },
             { call := Call.DeploymentsCreate "default" deployment, retriesLeft := 0,
               result := Except.error (statusError StatusReason.StatusReasonAlreadyExists) }] }) := by
  have hname : deployment.ObjectMeta.Name = "demo-deployment" := rfl
  simp [main, firstResource, bind_apply, Prog.bind, Println, DeploymentInterface.Create,
    BuildConfigFromFlags, NewForConfig, invoke, check, storeCluster, Store.createDeployment,
    NamespaceDefault, hname, h, pure_apply, panic, World.start, Except.map,
    show (storeEnv stdin retry).BuildConfigFromFlags = fun _ _ => Except.ok {} from rfl,
    show (storeEnv stdin retry).NewForConfig = fun _ => Except.ok storeCluster from rfl]

theorem secondResource_store_existing (stdin : Nat → ScanResult) (retry : Backoff)
    (w : World Store)
    (h : ∃ n ∈ w.cluster.namespaces, n.ObjectMeta.Name = "test-namespace") :
    secondResource (storeEnv stdin retry) storeCluster w =
      (Res.panic (PanicValue.error (statusError StatusReason.StatusReasonAlreadyExists)),
        { w with
          stdout := w.stdout ++ [Output.Println [Arg.str "Creating Second Resource"],
                     Output.Println [Arg.str "Creating namespace..."]]
          trace := w.trace ++
            [{ call := Call.NamespacesCreate namespace1, retriesLeft := 0,
               result := Except.error (statusError StatusReason.StatusReasonAlreadyExists) }] }) := by
  have hname : namespace1.ObjectMeta.Name = "test-namespace" := rfl
  simp [secondResource, bind_apply, Prog.bind, Println, NamespaceInterface.Create,
    invoke, check, storeCluster, Store.createNamespace, hname, h, panic, Except.map]

theorem secondResource_store_service (stdin : Nat → ScanResult) (j : Nat)
    (hin : ∀ n err, stdin n ≠ ScanResult.error err) (w : World Store)
    (hns : ∀ n ∈ w.cluster.namespaces, n.ObjectMeta.Name ≠ "test-namespace")
    (hdep : w.cluster.deployments "test-namespace" = [])
    (hsvc : ∃ x ∈ w.cluster.services "test-namespace", x.ObjectMeta.Name = "service-np") :
    (secondResource (storeEnv stdin { Steps := j + 1 }) storeCluster w).1 =
      Res.panic (PanicValue.error (statusError StatusReason.StatusReasonAlreadyExists)) ∧
    (secondResource (storeEnv stdin { Steps := j + 1 }) storeCluster w).2.trace =
      w.trace ++
        [{ call := Call.NamespacesCreate namespace1, retriesLeft := 0,
           result := Except.ok (Payload.namespace1
             { ObjectMeta := stamp namespace1.ObjectMeta "" (w.cluster.revision + 1) }) },
         scanEvent stdin w.reads,
         { call := Call.NamespacesList {}, retriesLeft := 0,
           result := Except.ok (Payload.namespaces (w.cluster.namespaces ++
             [{ ObjectMeta := stamp namespace1.ObjectMeta "" (w.cluster.revision + 1) }])) },
         { call := Call.DeploymentsCreate "test-namespace" deployment2, retriesLeft := 0,
           result := Except.ok (Payload.deployment
             (stored deployment2 "test-namespace" (w.cluster.revision + 2))) },
         scanEvent stdin (w.reads + 1),
         { call := Call.DeploymentsList "test-namespace" {}, retriesLeft := 0,
           result := Except.ok (Payload.deployments
             [stored deployment2 "test-namespace" (w.cluster.revision + 2)]) },
         scanEvent stdin (w.reads + 2),
         getEvent "test-namespace" j
           (Except.ok (stored deployment2 "test-namespace" (w.cluster.revision + 2))),
         updateEvent "test-namespace"
           (submitted 5 (stored deployment2 "test-namespace" (w.cluster.revision + 2))) j
           (Except.ok (stored (submitted 5 (stored deployment2 "test-namespace"
             (w.cluster.revision + 2))) "test-namespace" (w.cluster.revision + 3))),
         { call := Call.ServicesCreate "test-namespace" serviceNp, retriesLeft := 0,
           result := Except.error (statusError StatusReason.StatusReasonAlreadyExists) }] ∧
    (secondResource (storeEnv stdin { Steps := j + 1 }) storeCluster w).2.cluster.services
      = w.cluster.services ∧
    (secondResource (storeEnv stdin { Steps := j + 1 }) storeCluster w).2.cluster.deployments
      "test-namespace" = [stored (submitted 5 (stored deployment2 "test-namespace"
             (w.cluster.revision + 2))) "test-namespace" (w.cluster.revision + 3)] := by
  have hany : ¬ ∃ x ∈ w.cluster.namespaces, x.ObjectMeta.Name = "test-namespace" := by
    rintro ⟨x, hx, hname⟩
    exact hns x hx hname
  have hall : parseSelector "" = some [] := by decide
  have hname : serviceNp.ObjectMeta.Name = "service-np" := rfl
  refine ⟨?_, ?_, ?_, ?_⟩
  all_goals simp [secondResource, bind_apply, Prog.bind, Println, Printf, DeploymentInterface.Create,
    DeploymentInterface.List, DeploymentInterface.Get, DeploymentInterface.Update,
    NamespaceInterface.Create, NamespaceInterface.List, ServiceInterface.Create,
    invoke, check, storeCluster, Store.createDeployment,
    Store.listDeployments, Store.getDeployment, Store.updateDeployment,
    Store.createNamespace, Store.listNamespaces, Store.createService, hall, hany,
    hdep, hsvc, hname, prompt_store stdin _ hin, deployment2, namespace1, stamp,
    labelsMatch, printDeployments, pure_apply, RetryOnConflict, retryLoop, updateClosure,
    setImage0, int32Ptr, checkRetry, storeEnv_DefaultRetry, stored, scanEvent, getEvent,
    updateEvent, submitted, modified, Except.map, printNamespaces_apply, panic]


theorem firstResource_store_frame (stdin : Nat → ScanResult) (j : Nat)
    (hin : ∀ n err, stdin n ≠ ScanResult.error err) (w : World Store)
    (hempty : w.cluster.deployments "default" = []) :
    (firstResource (storeEnv stdin { Steps := j + 1 }) storeCluster w).2.cluster.namespaces =
      w.cluster.namespaces ∧
    (firstResource (storeEnv stdin { Steps := j + 1 }) storeCluster w).2.cluster.services =
      w.cluster.services ∧
    (firstResource (storeEnv stdin { Steps := j + 1 }) storeCluster w).2.cluster.deployments
      "test-namespace" = w.cluster.deployments "test-namespace" ∧
    (firstResource (storeEnv stdin { Steps := j + 1 }) storeCluster w).2.cluster.revision =
      w.cluster.revision + 2 ∧
    (firstResource (storeEnv stdin { Steps := j + 1 }) storeCluster w).2.reads = w.reads + 4 := by
  refine ⟨?_, ?_, ?_, ?_, ?_⟩ <;>
  simp [firstResource, bind_apply, Prog.bind, Println, Printf, DeploymentInterface.Create,
    DeploymentInterface.List, DeploymentInterface.Get, DeploymentInterface.Update,
    DeploymentInterface.Delete, invoke, check, storeCluster, Store.createDeployment,
    Store.listDeployments, Store.getDeployment, Store.updateDeployment, Store.deleteDeployment,
    hempty, prompt_store stdin _ hin, NamespaceDefault, deployment, stamp, parseSelector,
    labelsMatch, printDeployments, pure_apply, RetryOnConflict, retryLoop, updateClosure,
    setImage0, int32Ptr, checkRetry, storeEnv_DefaultRetry]

theorem main_store_split (stdin : Nat → ScanResult) (retry : Backoff) (s : Store) :
    main (storeEnv stdin retry) (World.start s) =
      (firstResource (storeEnv stdin retry) storeCluster >>= fun _ =>
        secondResource (storeEnv stdin retry) storeCluster)
        { cluster := s, reads := 0, stdout := [], trace := setupTrace (storeEnv stdin retry) } := by
  simp [main, bind_apply, Prog.bind, BuildConfigFromFlags, NewForConfig, invoke, check,
    pure_apply, World.start, Except.map, setupTrace,
    show (storeEnv stdin retry).BuildConfigFromFlags = fun _ _ => Except.ok {} from rfl,
    show (storeEnv stdin retry).NewForConfig = fun _ => Except.ok storeCluster from rfl]

theorem main_store (stdin : Nat → ScanResult) (j : Nat)
    (hin : ∀ n err, stdin n ≠ ScanResult.error err) (s : Store)
    (hempty : s.deployments "default" = [])
    (hns : ∀ n ∈ s.namespaces, n.ObjectMeta.Name ≠ "test-namespace")
    (hdep : s.deployments "test-namespace" = [])
    (hsvc : s.services "test-namespace" = []) :
    (main (storeEnv stdin { Steps := j + 1 }) (World.start s)).1 = Res.ok () ∧
    (main (storeEnv stdin { Steps := j + 1 }) (World.start s)).2.trace =
      setupTrace (storeEnv stdin { Steps := j + 1 }) ++ firstTrace stdin j s.revision 0 ++
        secondTrace stdin j (s.revision + 2) 4 s.namespaces := by
  rw [main_store_split]
  obtain ⟨h1, h2, _⟩ := firstResource_store stdin j hin
    { cluster := s, reads := 0, stdout := [],
      trace := setupTrace (storeEnv stdin { Steps := j + 1 }) } hempty
  obtain ⟨f1, f2, f3, f4, f5⟩ := firstResource_store_frame stdin j hin
    { cluster := s, reads := 0, stdout := [],
      trace := setupTrace (storeEnv stdin { Steps := j + 1 }) } hempty
  rcases hfirst : firstResource (storeEnv stdin { Steps := j + 1 }) storeCluster
    { cluster := s, reads := 0, stdout := [],
      trace := setupTrace (storeEnv stdin { Steps := j + 1 }) } with ⟨r, w1⟩
  rw [hfirst] at h1 h2 f1 f2 f3 f4 f5
  simp only at h1 h2 f1 f2 f3 f4 f5
  subst h1
  rw [bind_of_ok hfirst]
  obtain ⟨g1, g2, _⟩ := secondResource_store stdin j hin w1
    (by rw [f1]; exact hns) (by rw [f3]; exact hdep) (by rw [f2]; exact hsvc)
  refine ⟨g1, ?_⟩
  rw [g2, h2, f4, f5, f1]
  simp [firstTrace, secondTrace]

theorem backoff_succ (retry : Backoff) (hretry : 0 < retry.Steps) :
    retry = { Steps := (retry.Steps - 1) + 1 } := by
  obtain ⟨steps⟩ := retry
  simp at hretry
  simp
  omega

theorem closedStdin_ok : ∀ n err, closedStdin n ≠ ScanResult.error err := by
  simp [closedStdin]

theorem emptyStore_fresh : ∀ n ∈ emptyStore.namespaces, n.ObjectMeta.Name ≠ "test-namespace" := by
  simp [emptyStore]

theorem secondResource_store_retry (stdin : Nat → ScanResult) (retry : Backoff)
    (hretry : 0 < retry.Steps) (hin : ∀ n err, stdin n ≠ ScanResult.error err) (w : World Store)
    (hns : ∀ n ∈ w.cluster.namespaces, n.ObjectMeta.Name ≠ "test-namespace")
    (hdep : w.cluster.deployments "test-namespace" = [])
    (hsvc : w.cluster.services "test-namespace" = []) :
    (secondResource (storeEnv stdin retry) storeCluster w).2.trace =
      w.trace ++ secondTrace stdin (retry.Steps - 1) w.cluster.revision w.reads
        w.cluster.namespaces := by
  rw [backoff_succ retry hretry]
  exact (secondResource_store stdin (retry.Steps - 1) hin w hns hdep hsvc).2.1

theorem main_store_retry (stdin : Nat → ScanResult) (retry : Backoff) (hretry : 0 < retry.Steps)
    (hin : ∀ n err, stdin n ≠ ScanResult.error err) (s : Store)
    (hempty : s.deployments "default" = [])
    (hns : ∀ n ∈ s.namespaces, n.ObjectMeta.Name ≠ "test-namespace")
    (hdep : s.deployments "test-namespace" = [])
    (hsvc : s.services "test-namespace" = []) :
    (main (storeEnv stdin retry) (World.start s)).1 = Res.ok () ∧
    (main (storeEnv stdin retry) (World.start s)).2.trace =
      setupTrace (storeEnv stdin retry) ++ firstTrace stdin (retry.Steps - 1) s.revision 0 ++
        secondTrace stdin (retry.Steps - 1) (s.revision + 2) 4 s.namespaces := by
  obtain ⟨steps⟩ := retry
  obtain ⟨j, rfl⟩ : ∃ j, steps = j + 1 := ⟨steps - 1, by simp at hretry; omega⟩
  exact main_store stdin j hin s hempty hns hdep hsvc

end StoreRuns

/-! ## The claims -/

/-- C1: fail-fast with no cleanup.  In every run of `main` against an arbitrary cluster, a
call that fails with an error other than an update conflict still inside the retry budget
ends the run: the run panics, the failing call is the last event of the log (no later call,
so no compensating delete), no earlier step failed, and the calls issued are a beginning of
the success path.  Every error of a call that is not an `Update`, a delete reporting
not-found included, is of that kind. -/
theorem C1_fail_fast {σ : Type} (env : Env σ) (s : σ) (hpos : 0 < env.DefaultRetry.Steps)
    (i : Nat) (e : Event) (hi : (main env (World.start s)).2.trace[i]? = some e)
    (hf : FatalError e) :
    (∃ v, (main env (World.start s)).1 = Res.panic v) ∧
    i + 1 = (main env (World.start s)).2.trace.length ∧
    (∀ j x, j < i → (main env (World.start s)).2.trace[j]? = some x → ¬ FatalError x) ∧
    (∃ n1 n2, 1 ≤ n1 ∧ n1 ≤ env.DefaultRetry.Steps ∧ 1 ≤ n2 ∧ n2 ≤ env.DefaultRetry.Steps ∧
      (main env (World.start s)).2.trace.map Event.step <+:
        successPath (kubeconfig env) n1 n2) ∧
    (∀ (call : Call) (k : Nat) (err : GoError), call.isUpdate = false →
      FatalError { call := call, retriesLeft := k, result := Except.error err }) := by
  obtain ⟨h1, h2, h3, h4⟩ := main_failed_last env s hpos i e hi (fatalError_stepFailed e hf)
  refine ⟨h1, h2, fun j x hj hx hfx => h3 j x hj hx (fatalError_stepFailed x hfx), h4, ?_⟩
  intro call k err hcall
  simp [FatalError, hcall]

/-- C1, on the cluster where `demo-deployment` is left over: the create fails as event 2 and
the run ends there. -/
theorem C1_fail_fast_witness :
    (main (storeEnv closedStdin DefaultRetry) (World.start occupiedStore)).2.trace[2]? =
      some { call := Call.DeploymentsCreate "default" deployment, retriesLeft := 0,
             result := Except.error (statusError StatusReason.StatusReasonAlreadyExists) } ∧
    (∃ v, (main (storeEnv closedStdin DefaultRetry) (World.start occupiedStore)).1 = Res.panic v) ∧
    2 + 1 = (main (storeEnv closedStdin DefaultRetry) (World.start occupiedStore)).2.trace.length :=
  have hi : (main (storeEnv closedStdin DefaultRetry) (World.start occupiedStore)).2.trace[2]? =
      some { call := Call.DeploymentsCreate "default" deployment, retriesLeft := 0,
             result := Except.error (statusError StatusReason.StatusReasonAlreadyExists) } := by
    rw [main_store_existing closedStdin DefaultRetry occupiedStore
      ⟨stored deployment "default" 1, by simp [occupiedStore], rfl⟩]
    rfl
  have h := C1_fail_fast (storeEnv closedStdin DefaultRetry) occupiedStore (by decide) 2 _ hi
    (by simp [FatalError, Call.isUpdate])
  ⟨hi, h.1, h.2.1⟩

/-- C8: fixed sequence and normal exit.  `main` ends normally exactly when no step of the
run failed, and then the log is the whole success path: the cluster API calls are the fixed
list, each update step taking between one and the policy's number of attempts, whatever the
cluster returned.  A step failed when its call returned an error that is not a retried
conflict, when the console read reported an error, or when the script panicked on what the
call returned (a listed deployment with a nil `Replicas`, a fetched one without container 0). -/
theorem C8_fixed_sequence {σ : Type} (env : Env σ) (s : σ) (hpos : 0 < env.DefaultRetry.Steps) :
    ((main env (World.start s)).1 = Res.ok () ↔
      ∀ e ∈ (main env (World.start s)).2.trace, ¬ StepFailed e) ∧
    ((main env (World.start s)).1 = Res.ok () →
      ∃ n1 n2, 1 ≤ n1 ∧ n1 ≤ env.DefaultRetry.Steps ∧ 1 ≤ n2 ∧ n2 ≤ env.DefaultRetry.Steps ∧
        (main env (World.start s)).2.trace.map Event.step = successPath (kubeconfig env) n1 n2 ∧
        apiCalls (main env (World.start s)).2.trace = fixedSequence n1 n2) := by
  have hshape := main_shaped env s hpos
  constructor
  · constructor
    · intro hok
      rcases hshape with ⟨_, hclean, _⟩ | ⟨⟨v, hv⟩, _⟩
      · exact hclean
      · rw [hok] at hv; cases hv
    · intro hclean
      rcases hshape with ⟨⟨a, ha⟩, _, _⟩ | ⟨_, _, pre, last, hpre, _, hfail⟩
      · rw [ha]
      · exact absurd hfail (hclean last (by rw [hpre]; simp))
  · intro hok
    rcases hshape with ⟨_, _, hmatch⟩ | ⟨⟨v, hv⟩, _⟩
    · obtain ⟨n1, n2, h1, h2, h3, h4, hpath⟩ := mainPattern_matches _ _ _ hmatch
      refine ⟨n1, n2, h1, h2, h3, h4, hpath, ?_⟩
      unfold apiCalls
      rw [hpath, successPath_filter]
    · rw [hok] at hv; cases hv

/-- C8, on the empty cluster with the default retry policy. -/
theorem C8_fixed_sequence_witness :
    (main (storeEnv closedStdin DefaultRetry) (World.start emptyStore)).1 = Res.ok () ∧
    ∃ n1 n2, 1 ≤ n1 ∧ n1 ≤ 5 ∧ 1 ≤ n2 ∧ n2 ≤ 5 ∧
      apiCalls (main (storeEnv closedStdin DefaultRetry) (World.start emptyStore)).2.trace =
        fixedSequence n1 n2 :=
  have hok : (main (storeEnv closedStdin DefaultRetry) (World.start emptyStore)).1 = Res.ok () :=
    (main_store_retry closedStdin DefaultRetry (by decide) closedStdin_ok emptyStore rfl
      emptyStore_fresh rfl rfl).1
  have h := C8_fixed_sequence (storeEnv closedStdin DefaultRetry) emptyStore (by decide)
  ⟨hok, by
    obtain ⟨n1, n2, h1, h2, h3, h4, _, h6⟩ := h.2 hok
    exact ⟨n1, n2, h1, h2, h3, h4, h6⟩⟩

theorem modified_spec {replicas : Int} {fetched obj : Deployment}
    (h : modified replicas fetched = some obj) :
    obj.ObjectMeta = fetched.ObjectMeta ∧
    obj.Spec.Replicas = some replicas ∧
    obj.Spec.Selector = fetched.Spec.Selector ∧
    obj.Spec.Template.ObjectMeta = fetched.Spec.Template.ObjectMeta ∧
    ∃ c0 rest, fetched.Spec.Template.Spec.Containers = c0 :: rest ∧
      obj.Spec.Template.Spec.Containers =
        { Name := c0.Name, Image := "nginx:1.13", Ports := c0.Ports } :: rest := by
  unfold modified setImage0 at h
  cases hc : fetched.Spec.Template.Spec.Containers with
  | nil => simp [hc] at h
  | cons c0 rest =>
    simp only [hc, Option.some.injEq] at h
    subst h
    exact ⟨rfl, rfl, rfl, rfl, c0, rest, rfl, rfl⟩

/-- C2: read-modify-write freshness.  In every run of `main` against an arbitrary cluster,
every `Update` in the log comes right after a successful `Get` of `demo-deployment` of the
same attempt in the same scope, and the object it submits is the object that `Get` returned
with the replica count set (1 in `default`, 5 in `test-namespace`) and the image of container
0 set to `nginx:1.13`; metadata (resource version included), selector, template metadata,
the other fields of container 0 and the other containers are those fetched. -/
theorem C2_update_from_fresh_get {σ : Type} (env : Env σ) (s : σ) (i : Nat) (e : Event)
    (ns : String) (obj : Deployment)
    (hi : (main env (World.start s)).2.trace[i]? = some e)
    (hc : e.call = Call.DeploymentsUpdate ns obj) :
    ∃ j fetched, i = j + 1 ∧
      (main env (World.start s)).2.trace[j]? =
        some { call := Call.DeploymentsGet ns "demo-deployment", retriesLeft := e.retriesLeft,
               result := Except.ok (Payload.deployment fetched) } ∧
      ((ns = "default" ∧ obj.Spec.Replicas = some 1) ∨
        (ns = "test-namespace" ∧ obj.Spec.Replicas = some 5)) ∧
      obj.ObjectMeta = fetched.ObjectMeta ∧
      obj.Spec.Selector = fetched.Spec.Selector ∧
      obj.Spec.Template.ObjectMeta = fetched.Spec.Template.ObjectMeta ∧
      ∃ c0 rest, fetched.Spec.Template.Spec.Containers = c0 :: rest ∧
        obj.Spec.Template.Spec.Containers =
          { Name := c0.Name, Image := "nginx:1.13", Ports := c0.Ports } :: rest := by
  obtain ⟨new, hnew, hfresh⟩ := main_fresh env (World.start s)
  have htrace : (main env (World.start s)).2.trace = new := by simpa [World.start] using hnew
  rw [htrace] at hi ⊢
  have hfollows : ∃ j, i = j + 1 ∧ Follows new[j]? e := by
    rcases hfresh.getElem i e hi with ⟨_, h0⟩ | h
    · obtain ⟨_, fetched, hnone, _⟩ := h0 ns obj hc
      cases hnone
    · exact h
  obtain ⟨j, rfl, hf⟩ := hfollows
  obtain ⟨hns, fetched, hprev, hmod⟩ := hf ns obj hc
  obtain ⟨m1, m2, m3, m4, m5⟩ := modified_spec hmod
  refine ⟨j, fetched, rfl, by simpa [getEvent, Except.map] using hprev, ?_, m1, m3, m4, m5⟩
  rcases hns with rfl | rfl
  · left; exact ⟨rfl, by simpa [replicasFor] using m2⟩
  · right; exact ⟨rfl, by simpa [replicasFor] using m2⟩

/-- C2, on the empty cluster: event 7 of the run is the first `Update`, built from the
`Get` logged as event 6. -/
theorem C2_update_from_fresh_get_witness :
    ∃ fetched,
      (main (storeEnv closedStdin DefaultRetry) (World.start emptyStore)).2.trace[6]? =
        some { call := Call.DeploymentsGet "default" "demo-deployment", retriesLeft := 4,
               result := Except.ok (Payload.deployment fetched) } ∧
      (submitted 1 (stored deployment "default" 1)).ObjectMeta = fetched.ObjectMeta :=
  have hi : (main (storeEnv closedStdin DefaultRetry) (World.start emptyStore)).2.trace[7]? =
      some (updateEvent "default" (submitted 1 (stored deployment "default" 1)) 4
        (Except.ok (stored (submitted 1 (stored deployment "default" 1)) "default" 2))) := by
    rw [(main_store_retry closedStdin DefaultRetry (by decide) closedStdin_ok emptyStore rfl
      emptyStore_fresh rfl rfl).2]
    simp [setupTrace, firstTrace, emptyStore, DefaultRetry]
  have h := C2_update_from_fresh_get (storeEnv closedStdin DefaultRetry) emptyStore 7 _
    "default" (submitted 1 (stored deployment "default" 1)) hi rfl
  by
    obtain ⟨j, fetched, hj, hget, _, hmeta, _⟩ := h
    have hj6 : j = 6 := by omega
    subst hj6
    exact ⟨fetched, hget, hmeta⟩

/-- C9: pause gate.  Whatever the console holds, `prompt` returns normally when the read
yields a line of any content or the end of input, and panics exactly when the read reports
another error; the cluster, the output and the number of reads afterwards do not depend on
the content of the line. -/
theorem C9_prompt_gate {σ : Type} (env : Env σ) (w : World σ) :
    (∀ text, env.Stdin w.reads = ScanResult.token text → (prompt env w).1 = Res.ok ()) ∧
    (env.Stdin w.reads = ScanResult.eof → (prompt env w).1 = Res.ok ()) ∧
    (∀ err, env.Stdin w.reads = ScanResult.error err →
      (prompt env w).1 = Res.panic (PanicValue.error err)) ∧
    ((∃ v, (prompt env w).1 = Res.panic v) ↔ ∃ err, env.Stdin w.reads = ScanResult.error err) ∧
    ((prompt env w).1 = Res.ok () →
      (prompt env w).2.stdout =
        w.stdout ++ [Output.Printf "-> Press Return key to continue." [], Output.Println []]) ∧
    (prompt env w).2.cluster = w.cluster ∧
    (prompt env w).2.reads = w.reads + 1 := by
  by_cases h : ∃ err, env.Stdin w.reads = ScanResult.error err
  · obtain ⟨err, herr⟩ := h
    rw [prompt_of_error herr]
    refine ⟨?_, ?_, ?_, ?_, ?_, rfl, rfl⟩
    · intro text ht; rw [herr] at ht; cases ht
    · intro ht; rw [herr] at ht; cases ht
    · intro err2 h2
      rw [herr] at h2
      cases h2
      rfl
    · exact ⟨fun _ => ⟨err, herr⟩, fun _ => ⟨_, rfl⟩⟩
    · intro hok; cases hok
  · have h2 : ∀ err, env.Stdin w.reads ≠ ScanResult.error err := fun err he => h ⟨err, he⟩
    rw [prompt_of_not_error h2]
    refine ⟨fun _ _ => rfl, fun _ => rfl, ?_, ?_, ?_, rfl, rfl⟩
    · intro err herr; exact absurd herr (h2 err)
    · constructor
      · rintro ⟨v, hv⟩; cases hv
      · intro hex; exact absurd hex h
    · intro _
      simp [World.paused]

/-- C9, for a console whose next read yields the empty line. -/
theorem C9_prompt_gate_witness :
    (prompt (storeEnv (fun _ => ScanResult.token "") DefaultRetry) (World.start emptyStore)).1
      = Res.ok () :=
  (C9_prompt_gate (storeEnv (fun _ => ScanResult.token "") DefaultRetry)
    (World.start emptyStore)).1 "" rfl

/-- C10 as stated fails: the descriptor created in `test-namespace` differs from the one
created in the default scope in none of replica count, selector, labels, container name,
image or port. -/
theorem C10_descriptors_not_distinct :
    ¬ (deployment2.Spec.Replicas ≠ deployment.Spec.Replicas ∨
       deployment2.Spec.Selector ≠ deployment.Spec.Selector ∨
       deployment2.ObjectMeta.Labels ≠ deployment.ObjectMeta.Labels ∨
       deployment2.Spec.Template.ObjectMeta.Labels ≠ deployment.Spec.Template.ObjectMeta.Labels ∨
       deployment2.Spec.Template.Spec.Containers.map Container.Name ≠
         deployment.Spec.Template.Spec.Containers.map Container.Name ∨
       deployment2.Spec.Template.Spec.Containers.map Container.Image ≠
         deployment.Spec.Template.Spec.Containers.map Container.Image ∨
       deployment2.Spec.Template.Spec.Containers.map Container.Ports ≠
         deployment.Spec.Template.Spec.Containers.map Container.Ports) := by
  simp [deployment, deployment2]

/-- C10, amended: the descriptor that `main` creates in `test-namespace` is equal to the one
it creates in the default scope (2 replicas, selector and template label `app=demo`, one
container `web` with image `nginx:1.12` and port 80), and these are the only workload
descriptors any run of `main` submits to `Create`, each in its own scope. -/
theorem C10_same_descriptor {σ : Type} (env : Env σ) (s : σ)
    (hpos : 0 < env.DefaultRetry.Steps) :
    deployment2 = deployment ∧
    deployment.Spec.Replicas = some 2 ∧
    deployment.Spec.Template.Spec.Containers =
      [{ Name := "web", Image := "nginx:1.12",
         Ports := [{ Name := "http", Protocol := Protocol.ProtocolTCP, ContainerPort := 80 }] }] ∧
    ∀ e ∈ (main env (World.start s)).2.trace, ∀ ns d, e.call = Call.DeploymentsCreate ns d →
      (ns = "default" ∧ d = deployment) ∨ (ns = "test-namespace" ∧ d = deployment2) := by
  refine ⟨rfl, rfl, rfl, ?_⟩
  intro e he ns d hcall
  have hstep : Step.DeploymentsCreate ns d ∈ (main env (World.start s)).2.trace.map Event.step :=
    List.mem_map.mpr ⟨e, he, by simp [Event.step, hcall, Call.step]⟩
  have hin : ∃ n1 n2, Step.DeploymentsCreate ns d ∈ successPath (kubeconfig env) n1 n2 := by
    rcases main_shaped env s hpos with ⟨_, _, hmatch⟩ | ⟨_, hstop, _⟩
    · obtain ⟨n1, n2, _, _, _, _, hpath⟩ := mainPattern_matches _ _ _ hmatch
      exact ⟨n1, n2, hpath ▸ hstep⟩
    · obtain ⟨full, hfull, hprefix⟩ :=
        Pattern.stops_prefix _ (mainPattern_positive _ _ hpos) _ hstop
      obtain ⟨n1, n2, _, _, _, _, rfl⟩ := mainPattern_matches _ _ _ hfull
      exact ⟨n1, n2, hprefix.subset hstep⟩
  obtain ⟨n1, n2, hmem⟩ := hin
  have hatt : ∀ scope n, Step.DeploymentsCreate ns d ∉ attemptSteps scope n := by
    intro scope n
    induction n with
    | zero => simp [attemptSteps]
    | succ n ih => simp [attemptSteps, ih]
  simp only [successPath, List.mem_append, List.mem_cons, List.mem_singleton, hatt,
    List.not_mem_nil, or_false, false_or, Step.DeploymentsCreate.injEq] at hmem
  simpa using hmem

/-- C10 amended, on the cluster where `demo-deployment` is left over. -/
theorem C10_same_descriptor_witness :
    deployment2 = deployment ∧
    ∀ e ∈ (main (storeEnv closedStdin DefaultRetry) (World.start occupiedStore)).2.trace,
      ∀ ns d, e.call = Call.DeploymentsCreate ns d →
        (ns = "default" ∧ d = deployment) ∨ (ns = "test-namespace" ∧ d = deployment2) :=
  have h := C10_same_descriptor (storeEnv closedStdin DefaultRetry) occupiedStore (by decide)
  ⟨h.1, h.2.2.2⟩

theorem retryLoop_getCount {σ : Type} (c : DeploymentInterface σ) (replicas : Int) (fuel : Nat)
    (lastErr : Option GoError) (w : World σ) :
    getCount (retryLoop (updateClosure c replicas) fuel lastErr w).2.trace ≤
      getCount w.trace + fuel := by
  induction fuel generalizing lastErr w with
  | zero => simp [retryLoop, pure_apply]
  | succ k ih =>
    have hcount : ∀ (tr : List Event) (r : Except GoError Deployment),
        getCount (tr ++ [getEvent c.ns k r]) = getCount tr + 1 := by
      intro tr r
      simp [getCount, getEvent, Call.isGet]
    have hcount2 : ∀ (tr : List Event) (r : Except GoError Deployment) (obj : Deployment)
        (ru : Except GoError Deployment),
        getCount (tr ++ [getEvent c.ns k r, updateEvent c.ns obj k ru]) = getCount tr + 1 := by
      intro tr r obj ru
      simp [getCount, getEvent, updateEvent, Call.isGet]
    simp only [retryLoop, bind_apply, Prog.bind]
    rcases hg : c.cluster.getDeployment c.ns "demo-deployment" w.cluster with ⟨rg, s1⟩
    cases rg with
    | error err =>
      rw [updateClosure_get_error hg]
      simp only [hcount]
      omega
    | ok fetched =>
      cases hm : modified replicas fetched with
      | none =>
        rw [updateClosure_no_container hg hm]
        simp only [hcount]
        omega
      | some obj =>
        rcases hu : c.cluster.updateDeployment c.ns obj s1 with ⟨ru, s2⟩
        rw [updateClosure_update hg hm hu]
        cases ru with
        | ok d =>
          simp only [errorOf, pure_apply, hcount2]
          omega
        | error e =>
          by_cases hc : IsConflict e = true
          · simp only [errorOf, hc, if_true]
            have := ih (some e) { w with cluster := s2
                                         trace := w.trace ++ [getEvent c.ns k (Except.ok fetched),
                                           updateEvent c.ns obj k (Except.error e)] }
            simp only [hcount2] at this
            omega
          · simp only [errorOf, hc, Bool.false_eq_true, if_false, pure_apply, hcount2]
            omega

/-- C3: retry semantics of the update step.  One attempt of the step, with `j` further
attempts allowed, fetches and then submits.  If the `Get` fails the run panics there and
the remainder of the script is not run; if the `Update` succeeds the script goes on with its
remainder and no further attempt; if the `Update` is rejected with a conflict and attempts
are left, the step starts over with one attempt fewer; if it is rejected with a conflict and
no attempt is left, or with any other error, the run panics there.  A step of `fuel`
attempts issues at most `fuel` `Get` calls. -/
theorem C3_retry_semantics {σ β : Type} (c : DeploymentInterface σ) (replicas : Int)
    (rest : Unit → Prog σ β) (j : Nat) (lastErr : Option GoError) (w : World σ) :
    (∀ err s1, c.cluster.getDeployment c.ns "demo-deployment" w.cluster = (Except.error err, s1) →
      updateStep c replicas rest (j + 1) lastErr w =
        (Res.panic (PanicValue.Errorf "Failed to get latest version of Deployment: %v" err),
          { w with cluster := s1, trace := w.trace ++ [getEvent c.ns j (Except.error err)] })) ∧
    (∀ fetched obj s1 ru s2,
      c.cluster.getDeployment c.ns "demo-deployment" w.cluster = (Except.ok fetched, s1) →
      modified replicas fetched = some obj →
      c.cluster.updateDeployment c.ns obj s1 = (ru, s2) →
      (∀ d, ru = Except.ok d →
        updateStep c replicas rest (j + 1) lastErr w =
          rest () { w with cluster := s2
                           trace := w.trace ++
                             [getEvent c.ns j (Except.ok fetched), updateEvent c.ns obj j ru] }) ∧
      (∀ e, ru = Except.error e → IsConflict e = true → 0 < j →
        updateStep c replicas rest (j + 1) lastErr w =
          updateStep c replicas rest j (some e)
            { w with cluster := s2
                     trace := w.trace ++
                       [getEvent c.ns j (Except.ok fetched), updateEvent c.ns obj j ru] }) ∧
      (∀ e, ru = Except.error e → (IsConflict e = false ∨ j = 0) →
        updateStep c replicas rest (j + 1) lastErr w =
          (Res.panic (PanicValue.Errorf "Update failed: %v" e),
            { w with cluster := s2
                     trace := w.trace ++
                       [getEvent c.ns j (Except.ok fetched), updateEvent c.ns obj j ru] }))) ∧
    (∀ fuel, getCount (retryLoop (updateClosure c replicas) fuel lastErr w).2.trace ≤
      getCount w.trace + fuel) := by
  refine ⟨?_, ?_, fun fuel => retryLoop_getCount c replicas fuel lastErr w⟩
  · intro err s1 hg
    unfold updateStep
    rw [retryLoop_succ_apply, updateClosure_get_error hg]
  · intro fetched obj s1 ru s2 hg hm hu
    unfold updateStep
    refine ⟨?_, ?_, ?_⟩
    · rintro d rfl
      rw [retryLoop_succ_apply, updateClosure_update hg hm hu]
      simp [errorOf, checkRetry, bind_apply, Prog.bind, pure_apply]
    · rintro e rfl hc hj
      rw [retryLoop_succ_apply, updateClosure_update hg hm hu]
      simp [errorOf, hc]
    · rintro e rfl hcase
      rw [retryLoop_succ_apply, updateClosure_update hg hm hu]
      rcases hcase with hc | rfl
      · simp [errorOf, hc, checkRetry, bind_apply, Prog.bind, panic]
      · by_cases hc : IsConflict e = true
        · simp [errorOf, hc, retryLoop, checkRetry, bind_apply, Prog.bind, panic, pure_apply]
        · simp [errorOf, hc, checkRetry, bind_apply, Prog.bind, panic]

/-- C3, on a cluster where another actor wins the next update race: with two attempts
allowed, the rejected first attempt is followed by a second one with none left. -/
theorem C3_retry_semantics_witness :
    updateStep { cluster := contendedCluster, ns := "default" } 1 (fun _ => pure ()) 2 none
        (World.start 1) =
      updateStep { cluster := contendedCluster, ns := "default" } 1 (fun _ => pure ()) 1
        (some (statusError StatusReason.StatusReasonConflict))
        { cluster := 0, reads := 0, stdout := [],
          trace := [getEvent "default" 1 (Except.ok deployment),
            updateEvent "default" (submitted 1 deployment) 1
              (Except.error (statusError StatusReason.StatusReasonConflict))] } :=
  ((C3_retry_semantics { cluster := contendedCluster, ns := "default" } 1 (fun _ => pure ()) 1
      none (World.start 1)).2.1 deployment (submitted 1 deployment) 1
      (Except.error (statusError StatusReason.StatusReasonConflict)) 0 rfl rfl rfl).2.1
    (statusError StatusReason.StatusReasonConflict) rfl rfl (by decide)

/-- C4: end-to-end scenario A.  On a cluster whose default scope holds no workload and that
nobody else changes, lines 39-135 of `main` end normally; the create returns
`demo-deployment` with 2 replicas and image `nginx:1.12`; the list that follows returns
exactly that entry; the update step fetches it, submits it with 1 replica and image
`nginx:1.13` at the first attempt, and the second list returns exactly the updated entry;
the delete succeeds, the default scope is empty afterwards and a get of `demo-deployment`
fails with not-found. -/
theorem C4_scenario_A (stdin : Nat → ScanResult) (retry : Backoff) (hretry : 0 < retry.Steps)
    (hin : ∀ n err, stdin n ≠ ScanResult.error err) (w : World Store)
    (hempty : w.cluster.deployments "default" = []) :
    ∃ created sent updated : Deployment,
      (firstResource (storeEnv stdin retry) storeCluster w).1 = Res.ok () ∧
      (firstResource (storeEnv stdin retry) storeCluster w).2.trace =
        w.trace ++
          [{ call := Call.DeploymentsCreate "default" deployment, retriesLeft := 0,
             result := Except.ok (Payload.deployment created) },
           scanEvent stdin w.reads,
           { call := Call.DeploymentsList "default" {}, retriesLeft := 0,
             result := Except.ok (Payload.deployments [created]) },
           scanEvent stdin (w.reads + 1),
           { call := Call.DeploymentsGet "default" "demo-deployment",
             retriesLeft := retry.Steps - 1, result := Except.ok (Payload.deployment created) },
           { call := Call.DeploymentsUpdate "default" sent,
             retriesLeft := retry.Steps - 1, result := Except.ok (Payload.deployment updated) },
           scanEvent stdin (w.reads + 2),
           { call := Call.DeploymentsList "default" {}, retriesLeft := 0,
             result := Except.ok (Payload.deployments [updated]) },
           scanEvent stdin (w.reads + 3),
           { call := Call.DeploymentsDelete "default" "demo-deployment" foreground,
             retriesLeft := 0, result := Except.ok Payload.unit }] ∧
      created.ObjectMeta.Name = "demo-deployment" ∧
      created.Spec.Replicas = some 2 ∧
      created.Spec.Template.Spec.Containers.map Container.Image = ["nginx:1.12"] ∧
      updated.ObjectMeta.Name = "demo-deployment" ∧
      updated.Spec.Replicas = some 1 ∧
      updated.Spec.Template.Spec.Containers.map Container.Image = ["nginx:1.13"] ∧
      (firstResource (storeEnv stdin retry) storeCluster w).2.cluster.deployments "default" = [] ∧
      (Store.getDeployment "default" "demo-deployment"
        (firstResource (storeEnv stdin retry) storeCluster w).2.cluster).1 =
          Except.error (statusError StatusReason.StatusReasonNotFound) := by
  rw [backoff_succ retry hretry]
  obtain ⟨h1, h2, h3⟩ := firstResource_store stdin (retry.Steps - 1) hin w hempty
  refine ⟨stored deployment "default" (w.cluster.revision + 1),
    submitted 1 (stored deployment "default" (w.cluster.revision + 1)),
    stored (submitted 1 (stored deployment "default" (w.cluster.revision + 1))) "default"
      (w.cluster.revision + 2), h1, ?_, rfl, rfl, rfl, rfl, rfl, rfl, h3, ?_⟩
  · rw [h2]
    simp [getEvent, updateEvent, Except.map]
  · simp [Store.getDeployment, h3]

/-- C4, on the empty cluster with the default retry policy and a closed console. -/
theorem C4_scenario_A_witness :
    (firstResource (storeEnv closedStdin DefaultRetry) storeCluster (World.start emptyStore)).1
      = Res.ok () ∧
    (Store.getDeployment "default" "demo-deployment"
      (firstResource (storeEnv closedStdin DefaultRetry) storeCluster
        (World.start emptyStore)).2.cluster).1 =
        Except.error (statusError StatusReason.StatusReasonNotFound) := by
  obtain ⟨_, _, _, h1, _, _, _, _, _, _, _, _, h2⟩ :=
    C4_scenario_A closedStdin DefaultRetry (by decide) closedStdin_ok (World.start emptyStore) rfl
  exact ⟨h1, h2⟩

/-- C5: end-to-end scenario B, state outcomes.  On a cluster without `test-namespace` (and
nothing in that scope) that nobody else changes, lines 138-320 of `main` end normally: the
namespace is created and the namespace list includes it; the workload `demo-deployment` is
created in it with 2 replicas; the update step submits it with 5 replicas and image
`nginx:1.13` and the cluster stores that; the service `service-np` is created as a node-port
service with port 80, target port 80 and node port 31000; the deletes of the workload, the
service and the namespace succeed in that order, and none of the three is left.  (The list
filtered by the selector `app=demo`, which is not part of this claim, returns no entry.) -/
theorem C5_scenario_B (stdin : Nat → ScanResult) (retry : Backoff) (hretry : 0 < retry.Steps)
    (hin : ∀ n err, stdin n ≠ ScanResult.error err) (w : World Store)
    (hns : ∀ n ∈ w.cluster.namespaces, n.ObjectMeta.Name ≠ "test-namespace")
    (hdep : w.cluster.deployments "test-namespace" = [])
    (hsvc : w.cluster.services "test-namespace" = []) :
    ∃ (ns : Namespace) (created sent updated : Deployment) (svc : Service),
      (secondResource (storeEnv stdin retry) storeCluster w).1 = Res.ok () ∧
      (secondResource (storeEnv stdin retry) storeCluster w).2.trace =
        w.trace ++
          [{ call := Call.NamespacesCreate namespace1, retriesLeft := 0,
             result := Except.ok (Payload.namespace1 ns) },
           scanEvent stdin w.reads,
           { call := Call.NamespacesList {}, retriesLeft := 0,
             result := Except.ok (Payload.namespaces (w.cluster.namespaces ++ [ns])) },
           { call := Call.DeploymentsCreate "test-namespace" deployment2, retriesLeft := 0,
             result := Except.ok (Payload.deployment created) },
           scanEvent stdin (w.reads + 1),
           { call := Call.DeploymentsList "test-namespace" {}, retriesLeft := 0,
             result := Except.ok (Payload.deployments [created]) },
           scanEvent stdin (w.reads + 2),
           { call := Call.DeploymentsGet "test-namespace" "demo-deployment",
             retriesLeft := retry.Steps - 1, result := Except.ok (Payload.deployment created) },
           { call := Call.DeploymentsUpdate "test-namespace" sent,
             retriesLeft := retry.Steps - 1, result := Except.ok (Payload.deployment updated) },
           { call := Call.ServicesCreate "test-namespace" serviceNp, retriesLeft := 0,
             result := Except.ok (Payload.service svc) },
           scanEvent stdin (w.reads + 3),
           { call := Call.DeploymentsList "test-namespace" { LabelSelector := "app=demo" },
             retriesLeft := 0, result := Except.ok (Payload.deployments []) },
           scanEvent stdin (w.reads + 4),
           { call := Call.DeploymentsDelete "test-namespace" "demo-deployment" foreground,
             retriesLeft := 0, result := Except.ok Payload.unit },
           scanEvent stdin (w.reads + 5),
           { call := Call.ServicesDelete "test-namespace" "service-np" foreground,
             retriesLeft := 0, result := Except.ok Payload.unit },
           scanEvent stdin (w.reads + 6),
           { call := Call.NamespacesDelete "test-namespace" foreground,
             retriesLeft := 0, result := Except.ok Payload.unit }] ∧
      ns.ObjectMeta.Name = "test-namespace" ∧
      created.ObjectMeta.Name = "demo-deployment" ∧
      created.ObjectMeta.Namespace = "test-namespace" ∧
      created.Spec.Replicas = some 2 ∧
      updated.ObjectMeta.Name = "demo-deployment" ∧
      updated.Spec.Replicas = some 5 ∧
      updated.Spec.Template.Spec.Containers.map Container.Image = ["nginx:1.13"] ∧
      svc.ObjectMeta.Name = "service-np" ∧
      svc.ObjectMeta.Namespace = "test-namespace" ∧
      svc.Spec.ServiceType = ServiceType.ServiceTypeNodePort ∧
      svc.Spec.Ports = [{ Port := 80, TargetPort := IntOrString.FromInt 80, NodePort := 31000 }] ∧
      (secondResource (storeEnv stdin retry) storeCluster w).2.cluster.deployments
        "test-namespace" = [] ∧
      (secondResource (storeEnv stdin retry) storeCluster w).2.cluster.services
        "test-namespace" = [] ∧
      (∀ n ∈ (secondResource (storeEnv stdin retry) storeCluster w).2.cluster.namespaces,
        n.ObjectMeta.Name ≠ "test-namespace") := by
  rw [backoff_succ retry hretry]
  obtain ⟨h1, h2, h3, h4, h5⟩ :=
    secondResource_store stdin (retry.Steps - 1) hin w hns hdep hsvc
  refine ⟨{ ObjectMeta := stamp namespace1.ObjectMeta "" (w.cluster.revision + 1) },
    stored deployment2 "test-namespace" (w.cluster.revision + 2),
    submitted 5 (stored deployment2 "test-namespace" (w.cluster.revision + 2)),
    stored (submitted 5 (stored deployment2 "test-namespace" (w.cluster.revision + 2)))
      "test-namespace" (w.cluster.revision + 3),
    { serviceNp with
      ObjectMeta := stamp serviceNp.ObjectMeta "test-namespace" (w.cluster.revision + 4) },
    h1, ?_, rfl, rfl, rfl, rfl, rfl, rfl, rfl, rfl, rfl, rfl, rfl, h3, h4, ?_⟩
  · rw [h2]
    simp [getEvent, updateEvent, Except.map]
  · rw [h5]
    exact hns

/-- C5, on the empty cluster with the default retry policy and a closed console. -/
theorem C5_scenario_B_witness :
    (secondResource (storeEnv closedStdin DefaultRetry) storeCluster (World.start emptyStore)).1
      = Res.ok () ∧
    (secondResource (storeEnv closedStdin DefaultRetry) storeCluster
      (World.start emptyStore)).2.cluster.deployments "test-namespace" = [] := by
  obtain ⟨_, _, _, _, _, h1, _, _, _, _, _, _, _, _, _, _, _, _, h2, _⟩ :=
    C5_scenario_B closedStdin DefaultRetry (by decide) closedStdin_ok (World.start emptyStore)
      emptyStore_fresh rfl rfl
  exact ⟨h1, h2⟩

/-- C6 fails on the code: in scenario B on the empty cluster, the list of the workloads of
`test-namespace` without selector (event 5) returns the workload the script created, but the
list filtered by `app=demo` (event 11) returns no entry, because the created workload
carries the label only on its pod template and selector, not in its own metadata. -/
theorem C6_selector_list_empty :
    (secondResource (storeEnv closedStdin DefaultRetry) storeCluster
        (World.start emptyStore)).2.trace[5]? =
      some { call := Call.DeploymentsList "test-namespace" {}, retriesLeft := 0,
             result := Except.ok (Payload.deployments [stored deployment2 "test-namespace" 2]) } ∧
    (secondResource (storeEnv closedStdin DefaultRetry) storeCluster
        (World.start emptyStore)).2.trace[11]? =
      some { call := Call.DeploymentsList "test-namespace" { LabelSelector := "app=demo" },
             retriesLeft := 0, result := Except.ok (Payload.deployments []) } ∧
    deployment2.ObjectMeta.Labels = [] ∧
    deployment2.Spec.Template.ObjectMeta.Labels = [("app", "demo")] ∧
    labelsMatch [("app", "demo")] (stored deployment2 "test-namespace" 2).ObjectMeta = false := by
  rw [secondResource_store_retry closedStdin DefaultRetry (by decide) closedStdin_ok
    (World.start emptyStore) emptyStore_fresh rfl rfl]
  refine ⟨?_, ?_, rfl, rfl, ?_⟩
  · simp [secondTrace, World.start, emptyStore]
  · simp [secondTrace, World.start, emptyStore]
  · simp [labelsMatch, stored, stamp, deployment2]

/-- C7: a re-run without cleanup fails outright.  On a cluster nobody else changes: when
`demo-deployment` exists in the default scope, `main` panics at the first create, which is
its only cluster API call, and leaves the cluster as it was; when `test-namespace` exists,
lines 138-320 panic at the namespace create, their only call, and leave the cluster as it
was; when `service-np` exists in `test-namespace`, they panic at the service create, which
is the last call, and leave the services as they were. -/
theorem C7_rerun_fails (stdin : Nat → ScanResult) (retry : Backoff) (hretry : 0 < retry.Steps)
    (hin : ∀ n err, stdin n ≠ ScanResult.error err) :
    (∀ s : Store, (∃ d ∈ s.deployments "default", d.ObjectMeta.Name = "demo-deployment") →
      (main (storeEnv stdin retry) (World.start s)).1 =
        Res.panic (PanicValue.error (statusError StatusReason.StatusReasonAlreadyExists)) ∧
      (main (storeEnv stdin retry) (World.start s)).2.trace =
        setupTrace (storeEnv stdin retry) ++
          [{ call := Call.DeploymentsCreate "default" deployment, retriesLeft := 0,
             result := Except.error (statusError StatusReason.StatusReasonAlreadyExists) }] ∧
      apiCalls (main (storeEnv stdin retry) (World.start s)).2.trace =
        [Step.DeploymentsCreate "default" deployment] ∧
      (main (storeEnv stdin retry) (World.start s)).2.cluster = s) ∧
    (∀ w : World Store, (∃ n ∈ w.cluster.namespaces, n.ObjectMeta.Name = "test-namespace") →
      (secondResource (storeEnv stdin retry) storeCluster w).1 =
        Res.panic (PanicValue.error (statusError StatusReason.StatusReasonAlreadyExists)) ∧
      (secondResource (storeEnv stdin retry) storeCluster w).2.trace =
        w.trace ++
          [{ call := Call.NamespacesCreate namespace1, retriesLeft := 0,
             result := Except.error (statusError StatusReason.StatusReasonAlreadyExists) }] ∧
      (secondResource (storeEnv stdin retry) storeCluster w).2.cluster = w.cluster) ∧
    (∀ w : World Store, (∀ n ∈ w.cluster.namespaces, n.ObjectMeta.Name ≠ "test-namespace") →
      w.cluster.deployments "test-namespace" = [] →
      (∃ x ∈ w.cluster.services "test-namespace", x.ObjectMeta.Name = "service-np") →
      (secondResource (storeEnv stdin retry) storeCluster w).1 =
        Res.panic (PanicValue.error (statusError StatusReason.StatusReasonAlreadyExists)) ∧
      (secondResource (storeEnv stdin retry) storeCluster w).2.trace.getLast? =
        some { call := Call.ServicesCreate "test-namespace" serviceNp, retriesLeft := 0,
               result := Except.error (statusError StatusReason.StatusReasonAlreadyExists) } ∧
      (secondResource (storeEnv stdin retry) storeCluster w).2.cluster.services =
        w.cluster.services) := by
  refine ⟨?_, ?_, ?_⟩
  · intro s h
    rw [main_store_existing stdin retry s h]
    refine ⟨rfl, rfl, ?_, rfl⟩
    simp [apiCalls, Event.step, Call.step, Step.isApi]
  · intro w h
    rw [secondResource_store_existing stdin retry w h]
    exact ⟨rfl, rfl, rfl⟩
  · intro w hns hdep hsvc
    rw [backoff_succ retry hretry]
    obtain ⟨h1, h2, h3, _⟩ :=
      secondResource_store_service stdin (retry.Steps - 1) hin w hns hdep hsvc
    refine ⟨h1, ?_, h3⟩
    rw [h2]
    simp

/-- C7, on the cluster where `demo-deployment` is left over. -/
theorem C7_rerun_fails_witness :
    (main (storeEnv closedStdin DefaultRetry) (World.start occupiedStore)).1 =
      Res.panic (PanicValue.error (statusError StatusReason.StatusReasonAlreadyExists)) ∧
    apiCalls (main (storeEnv closedStdin DefaultRetry) (World.start occupiedStore)).2.trace =
      [Step.DeploymentsCreate "default" deployment] ∧
    (main (storeEnv closedStdin DefaultRetry) (World.start occupiedStore)).2.cluster =
      occupiedStore := by
  obtain ⟨h1, _, h3, h4⟩ :=
    (C7_rerun_fails closedStdin DefaultRetry (by decide) closedStdin_ok).1 occupiedStore
      ⟨stored deployment "default" 1, by simp [occupiedStore], rfl⟩
  exact ⟨h1, h3, h4⟩

end Assignment1
